import Mathlib

/-!
Verification development for the warehouse chat-bot repository
(`db.py`, `main.py`, `utils.py`, `filters.py`, `states.py`, `config.py`).

The Python source is shallowly embedded: the SQLite-backed `Database`
class becomes a pure `Db` record with list-valued tables, every handler
of the aiogram routers becomes a pure function from (config, db, session,
user, input) to (db, session, replies), and the router dispatch order of
`main.py` is reproduced by `dispatchMessage` / `dispatchCallback`.
SQLite `REAL` values are modelled as exact rationals extended with the
IEEE specials (`PyFloat`), since no claim under study depends on binary
rounding.  String scope: character predicates (whitespace, digits,
lower-casing) are modelled for the ASCII and Cyrillic ranges actually
exercised by the bot's UI; full Unicode tables are out of scope.
-/

section RatReducibility
/- The Batteries rational operations are `@[irreducible]` by default,
which blocks `decide` on concrete evaluations; restore semireducibility
so that closed computations over the embedded store reduce. -/
set_option allowUnsafeReducibility true
attribute [semireducible] Rat.add Rat.mul Rat.sub Rat.div
end RatReducibility

/-! ## Python string primitives (scoped to ASCII + Cyrillic) -/

/-- Whitespace as recognised by Python's `str.strip()` (ASCII scope). -/
def isPySpace (c : Char) : Bool :=
  c = ' ' ∨ c = '\t' ∨ c = '\n' ∨ c = '\r' ∨ c = '\x0b' ∨ c = '\x0c'

/-- ASCII decimal digit (spelled as the ten cases so membership can be
case-analysed). -/
def isDigitChar (c : Char) : Bool :=
  c = '0' ∨ c = '1' ∨ c = '2' ∨ c = '3' ∨ c = '4' ∨
  c = '5' ∨ c = '6' ∨ c = '7' ∨ c = '8' ∨ c = '9'

/-- `str.strip()` on a character list: drop leading and trailing whitespace. -/
def pyStripL (l : List Char) : List Char :=
  ((l.dropWhile isPySpace).reverse.dropWhile isPySpace).reverse

/-- `str.strip()` for `String`. -/
def pyStrip (s : String) : String :=
  ⟨pyStripL s.data⟩

/-- `str.lower()` for one character, covering ASCII letters and the
Cyrillic letters used by the bot's button texts. -/
def pyLowerChar (c : Char) : Char :=
  if 'A' ≤ c ∧ c ≤ 'Z' then Char.ofNat (c.toNat + 32)
  else if 'А' ≤ c ∧ c ≤ 'Я' then Char.ofNat (c.toNat + 32)
  else if c = 'Ё' then 'ё'
  else c

/-- `str.lower()` for `String` (ASCII + Cyrillic scope). -/
def pyLower (s : String) : String :=
  ⟨s.data.map pyLowerChar⟩

/-- `str.isdigit()` (ASCII scope): nonempty and all decimal digits. -/
def pyIsdigit (s : String) : Bool :=
  ¬ s.data.isEmpty ∧ s.data.all isDigitChar

/-- Value of a list of ASCII digits read in base 10. -/
def digitsToNat (l : List Char) : Nat :=
  l.foldl (fun acc c => 10 * acc + (c.toNat - '0'.toNat)) 0

/-- `int(s)` for a string of ASCII digits. -/
def strToNat (s : String) : Nat :=
  digitsToNat s.data

/-! ## Python floats

`utils.parse_number` funnels user input into CPython's `float()`.  We
model a float as an exact rational extended with the IEEE special
values, and `float()`'s accepted syntax by a recursive-descent parser
over the CPython grammar: optional sign, then `inf`/`infinity`/`nan`
(case-insensitive) or a digit part with optional fraction and exponent,
with underscores permitted between digits (Python ≥ 3.6). -/

inductive PyFloat where
  | num (q : ℚ)
  | inf
  | ninf
  | nan
  deriving DecidableEq, Repr

namespace PyFloat

/-- IEEE addition on the extended rationals (used by `adjust_item_qty`). -/
def add : PyFloat → PyFloat → PyFloat
  | nan, _ => nan
  | _, nan => nan
  | num a, num b => num (a + b)
  | num _, inf => inf
  | num _, ninf => ninf
  | inf, num _ => inf
  | ninf, num _ => ninf
  | inf, inf => inf
  | inf, ninf => nan
  | ninf, inf => nan
  | ninf, ninf => ninf

/-- IEEE subtraction on the extended rationals (used by `set_qty_note`). -/
def sub : PyFloat → PyFloat → PyFloat
  | nan, _ => nan
  | _, nan => nan
  | num a, num b => num (a - b)
  | num _, inf => ninf
  | num _, ninf => inf
  | inf, num _ => inf
  | ninf, num _ => ninf
  | inf, inf => nan
  | inf, ninf => inf
  | ninf, inf => ninf
  | ninf, ninf => nan

/-- Negation (applied when the literal carries a `-` sign). -/
def neg : PyFloat → PyFloat
  | num a => num (-a)
  | inf => ninf
  | ninf => inf
  | nan => nan

end PyFloat

/-- Consume a CPython `digitpart`: a digit, then digits optionally
separated by single underscores.  Returns the digits read (underscores
removed) and the unconsumed remainder; `none` if the input does not
start with a digit.  A trailing underscore is left unconsumed, which
makes the whole literal fail later, exactly as in CPython. -/
def takeDigitpartGo : List Char → List Char × List Char
  | [] => ([], [])
  | c :: rest =>
    if isDigitChar c then
      let r := takeDigitpartGo rest
      (c :: r.1, r.2)
    else if c = '_' then
      match rest with
      | c2 :: rest2 =>
        if isDigitChar c2 then
          let r := takeDigitpartGo rest2
          (c2 :: r.1, r.2)
        else ([], c :: rest)
      | [] => ([], c :: rest)
    else ([], c :: rest)

/-- Entry to a digit part: the input must start with a digit. -/
def takeDigitpart : List Char → Option (List Char × List Char)
  | [] => none
  | c :: rest =>
    if isDigitChar c then
      let r := takeDigitpartGo rest
      some (c :: r.1, r.2)
    else none

/-- Assemble the value of a parsed float literal from integer digits,
fraction digits and a signed decimal exponent: the mantissa digits read
as an integer, scaled by ten to the `e - |fp|` (built with the
kernel-computable `mkRat` rather than field division). -/
def floatVal (ip fp : List Char) (e : Int) : ℚ :=
  let m : Int := Int.ofNat (digitsToNat (ip ++ fp))
  match Int.sub e (Int.ofNat fp.length) with
  | Int.ofNat k => mkRat (Int.mul m (Int.pow 10 k)) 1
  | Int.negSucc k => mkRat m (10 ^ (k + 1))

/-- Parse the exponent suffix (if any) and require the input to be fully
consumed, yielding the literal's value. -/
def parseExponent (ip fp : List Char) : List Char → Option ℚ
  | [] => some (floatVal ip fp 0)
  | c :: rest =>
    if c = 'e' ∨ c = 'E' then
      let signed : Bool × List Char :=
        match rest with
        | c2 :: r2 =>
          if c2 = '+' then (false, r2)
          else if c2 = '-' then (true, r2)
          else (false, c2 :: r2)
        | [] => (false, [])
      match takeDigitpart signed.2 with
      | some (ds, []) =>
        some (floatVal ip fp
          (if signed.1 then -(digitsToNat ds : Int) else (digitsToNat ds : Int)))
      | _ => none
    else none

/-- Parse an unsigned CPython float number: `digitpart ['.' digitpart?]
exponent?` or `'.' digitpart exponent?`. -/
def parseUnsignedFloat (l : List Char) : Option ℚ :=
  match takeDigitpart l with
  | some (ip, rest) =>
    match rest with
    | c :: rest2 =>
      if c = '.' then
        match takeDigitpart rest2 with
        | some (fp, rest3) => parseExponent ip fp rest3
        | none => parseExponent ip [] rest2
      else parseExponent ip [] (c :: rest2)
    | [] => parseExponent ip [] []
  | none =>
    match l with
    | c :: rest2 =>
      if c = '.' then
        match takeDigitpart rest2 with
        | some (fp, rest3) => parseExponent [] fp rest3
        | none => none
      else none
    | [] => none

/-- `float(s)` on a string already free of leading/trailing whitespace:
optional sign, then `inf`/`infinity`/`nan` (case-insensitive) or an
unsigned float number. -/
def pyFloatOfChars (l : List Char) : Option PyFloat :=
  let core := fun (m : List Char) (negate : Bool) =>
    let low := m.map pyLowerChar
    if low = "inf".data ∨ low = "infinity".data then
      some (if negate then PyFloat.ninf else PyFloat.inf)
    else if low = "nan".data then
      some PyFloat.nan
    else
      match parseUnsignedFloat m with
      | some q => some (PyFloat.num (if negate then -q else q))
      | none => none
  match l with
  | c :: rest =>
    if c = '+' then core rest false
    else if c = '-' then core rest true
    else core (c :: rest) false
  | [] => core [] false

/-- `utils.parse_number`: strip the input, remove every ASCII space,
turn commas into dots, reject the empty string, then delegate to
`float()`. -/
def parse_number (value : String) : Option PyFloat :=
  let raw := (pyStripL value.data).filter (fun c => c ≠ ' ')
  let raw := raw.map (fun c => if c = ',' then '.' else c)
  if raw.isEmpty then none else pyFloatOfChars raw

/-! ## The inventory store (`db.py`)

The SQLite tables become list-valued fields; rows carry the schema's
columns.  `AUTOINCREMENT` surrogate keys are modelled by monotone
counters starting at 1.  Wall-clock timestamps (`Database._now`) are
modelled by a logical clock `tick` bumped on every mutating call.
`PRAGMA foreign_keys = ON` together with `movements.item_id REFERENCES
items(id) ON DELETE CASCADE` is modelled inside `delete_item` and
`add_movement`.  Note that the `UNIQUE` constraints on `items.sku`,
`warehouses.name` and `admins.tg_id` use SQLite's default BINARY
collation, i.e. they are case-SENSITIVE, which the model reproduces
exactly. -/

structure ItemRow where
  id : Nat
  sku : String
  name : String
  qty : PyFloat
  unit : String
  location : Option String
  warehouse : Option String
  min_qty : PyFloat
  updated_at : Nat
  deriving DecidableEq, Repr

structure WarehouseRow where
  id : Nat
  name : String
  created_at : Nat
  deriving DecidableEq, Repr

structure AdminRow where
  id : Nat
  tg_id : Nat
  name : Option String
  added_at : Nat
  deriving DecidableEq, Repr

structure MovementRow where
  id : Nat
  item_id : Nat
  delta : PyFloat
  note : Option String
  admin_tg_id : Nat
  created_at : Nat
  deriving DecidableEq, Repr

structure Db where
  items : List ItemRow := []
  warehouses : List WarehouseRow := []
  admins : List AdminRow := []
  movements : List MovementRow := []
  nextItemId : Nat := 1
  nextWarehouseId : Nat := 1
  nextAdminId : Nat := 1
  nextMovementId : Nat := 1
  tick : Nat := 0
  deriving DecidableEq, Repr

/-- The freshly initialised database (`Database.init` on a new file). -/
def emptyDb : Db := {}

/-- `Database.is_admin`: is some row of `admins` keyed by this id? -/
def is_admin (db : Db) (tg_id : Nat) : Bool :=
  db.admins.any (fun a => a.tg_id = tg_id)

/-- `Database.add_admin`: insert, or report the `UNIQUE(tg_id)` violation
(`True` is still returned when `silent`). -/
def add_admin (db : Db) (tg_id : Nat) (name : Option String)
    (silent : Bool := false) : Bool × Db :=
  if db.admins.any (fun a => a.tg_id = tg_id) then
    ((if silent then true else false), db)
  else
    (true,
      { db with
        admins := db.admins ++
          [{ id := db.nextAdminId, tg_id := tg_id, name := name,
             added_at := db.tick }],
        nextAdminId := db.nextAdminId + 1,
        tick := db.tick + 1 })

/-- `Database.ensure_admins`: add each configured super-admin silently.
Called only from `main()` at process startup. -/
def ensure_admins (db : Db) (tg_ids : List Nat) : Db :=
  tg_ids.foldl (fun d tg => (add_admin d tg (some "superadmin") true).2) db

/-- `Database.remove_admin`: delete by tg_id, report whether a row went. -/
def remove_admin (db : Db) (tg_id : Nat) : Bool × Db :=
  (db.admins.any (fun a => a.tg_id = tg_id),
   { db with admins := db.admins.filter (fun a => ¬ a.tg_id = tg_id),
             tick := db.tick + 1 })

/-- `Database.add_item`: insert, or report the `UNIQUE(sku)` violation.
The constraint uses BINARY collation: the duplicate test is
case-sensitive string equality. -/
def add_item (db : Db) (sku name : String) (qty : PyFloat) (unit : String)
    (location warehouse : Option String) (min_qty : PyFloat) : Bool × Db :=
  if db.items.any (fun it => it.sku = sku) then
    (false, db)
  else
    (true,
      { db with
        items := db.items ++
          [{ id := db.nextItemId, sku := sku, name := name, qty := qty,
             unit := unit, location := location, warehouse := warehouse,
             min_qty := min_qty, updated_at := db.tick }],
        nextItemId := db.nextItemId + 1,
        tick := db.tick + 1 })

/-- `Database.get_item_by_id`. -/
def get_item_by_id (db : Db) (item_id : Nat) : Option ItemRow :=
  db.items.find? (fun it => it.id = item_id)

/-- `Database.get_item_by_sku`: `WHERE lower(sku) = lower(?)` — the one
case-insensitive sku comparison in the data layer. -/
def get_item_by_sku (db : Db) (sku : String) : Option ItemRow :=
  db.items.find? (fun it => pyLower it.sku = pyLower sku)

/-- `Database.get_item_by_key`: strip; a digit string is tried as an id
first, then any key falls back to the case-insensitive sku lookup. -/
def get_item_by_key (db : Db) (key : String) : Option ItemRow :=
  let key := pyStrip key
  if pyIsdigit key then
    match get_item_by_id db (strToNat key) with
    | some item => some item
    | none => get_item_by_sku db key
  else get_item_by_sku db key

/-- `ORDER BY name ASC` of the item queries. -/
def sortItemsByName (l : List ItemRow) : List ItemRow :=
  l.mergeSort (fun a b => a.name ≤ b.name)

/-- `Database.list_items`: name-ordered window. -/
def list_items (db : Db) (limit offset : Nat) : List ItemRow :=
  ((sortItemsByName db.items).drop offset).take limit

/-- `Database.count_items`. -/
def count_items (db : Db) : Nat :=
  db.items.length

/-- Case-insensitive substring test modelling SQLite's `LIKE '%q%'`
(ASCII case folding, as in SQLite's default `LIKE`). -/
def likeContains (hay needle : String) : Bool :=
  let h := hay.data.map pyLowerChar
  let n := needle.data.map pyLowerChar
  (List.range (h.length + 1)).any (fun i => (h.drop i).take n.length = n)

/-- `Database.search_items`: substring match on sku or name. -/
def search_items (db : Db) (query : String) (limit : Nat := 50) :
    List ItemRow :=
  ((sortItemsByName (db.items.filter (fun it =>
      likeContains it.sku (pyStrip query) ∨
      likeContains it.name (pyStrip query)))).take limit)

/-- `Database.update_item_qty`: absolute overwrite of one row's qty. -/
def update_item_qty (db : Db) (item_id : Nat) (new_qty : PyFloat) : Db :=
  { db with
    items := db.items.map (fun it =>
      if it.id = item_id then
        { it with qty := new_qty, updated_at := db.tick }
      else it),
    tick := db.tick + 1 }

/-- `Database.adjust_item_qty`: additive update of one row's qty. -/
def adjust_item_qty (db : Db) (item_id : Nat) (delta : PyFloat) : Db :=
  { db with
    items := db.items.map (fun it =>
      if it.id = item_id then
        { it with qty := it.qty.add delta, updated_at := db.tick }
      else it),
    tick := db.tick + 1 }

/-- `Database.update_item_fields`: sparse single-row update.  A `None`
argument means "leave the column alone" (so the `-` sentinel for
location/warehouse never reaches the database, as in the source).  The
statement hits the BINARY-collated `UNIQUE(sku)` constraint exactly when
the updated row exists and another row carries the identical sku. -/
def update_item_fields (db : Db) (item_id : Nat)
    (name sku unit : Option String := none)
    (location warehouse : Option String := none)
    (min_qty : Option PyFloat := none) : Bool × Db :=
  let violation : Bool :=
    db.items.any (fun it => it.id = item_id) &&
    (match sku with
     | some s => db.items.any (fun o => ¬ o.id = item_id ∧ o.sku = s)
     | none => false)
  if violation then (false, db)
  else
    (true,
      { db with
        items := db.items.map (fun it =>
          if it.id = item_id then
            { it with
              name := name.getD it.name,
              sku := sku.getD it.sku,
              unit := unit.getD it.unit,
              location := location.orElse (fun _ => it.location),
              warehouse := warehouse.orElse (fun _ => it.warehouse),
              min_qty := min_qty.getD it.min_qty,
              updated_at := db.tick }
          else it),
        tick := db.tick + 1 })

/-- `Database.delete_item`: delete the row; `PRAGMA foreign_keys = ON`
plus `ON DELETE CASCADE` removes every movement referencing it. -/
def delete_item (db : Db) (item_id : Nat) : Bool × Db :=
  (db.items.any (fun it => it.id = item_id),
   { db with
     items := db.items.filter (fun it => ¬ it.id = item_id),
     movements := db.movements.filter (fun m => ¬ m.item_id = item_id),
     tick := db.tick + 1 })

/-- `Database.add_movement`: append an audit row.  The `REFERENCES
items(id)` constraint (foreign keys on) makes the insert fail for a
missing item; the model leaves the store unchanged in that case. -/
def add_movement (db : Db) (item_id : Nat) (delta : PyFloat)
    (note : Option String) (admin_tg_id : Nat) : Db :=
  if db.items.any (fun it => it.id = item_id) then
    { db with
      movements := db.movements ++
        [{ id := db.nextMovementId, item_id := item_id, delta := delta,
           note := note, admin_tg_id := admin_tg_id,
           created_at := db.tick }],
      nextMovementId := db.nextMovementId + 1,
      tick := db.tick + 1 }
  else db

/-- `Database.add_warehouse`: insert, or report the `UNIQUE(name)`
violation (BINARY collation, case-sensitive). -/
def add_warehouse (db : Db) (name : String) : Bool × Db :=
  if db.warehouses.any (fun w => w.name = name) then
    (false, db)
  else
    (true,
      { db with
        warehouses := db.warehouses ++
          [{ id := db.nextWarehouseId, name := name,
             created_at := db.tick }],
        nextWarehouseId := db.nextWarehouseId + 1,
        tick := db.tick + 1 })

/-- `Database.get_warehouse_by_name` (exact match). -/
def get_warehouse_by_name (db : Db) (name : String) : Option WarehouseRow :=
  db.warehouses.find? (fun w => w.name = name)

/-- `Database.get_warehouse_by_id`. -/
def get_warehouse_by_id (db : Db) (warehouse_id : Nat) :
    Option WarehouseRow :=
  db.warehouses.find? (fun w => w.id = warehouse_id)

/-- `Database.list_warehouses` (`ORDER BY name ASC`). -/
def list_warehouses (db : Db) : List WarehouseRow :=
  db.warehouses.mergeSort (fun a b => a.name ≤ b.name)

/-- `Database.count_items_by_warehouse`. -/
def count_items_by_warehouse (db : Db) (warehouse_name : Option String) :
    Nat :=
  match warehouse_name with
  | none => count_items db
  | some n => (db.items.filter (fun it => it.warehouse = some n)).length

/-- `Database.list_items_by_warehouse`: optional warehouse filter plus a
sort key from `{name, qty, sku}` (qty ordering compares the rational
part; the specials never arise in the claims under study).  Falls back
to name order for any other sort token, as in the source. -/
def list_items_by_warehouse (db : Db) (warehouse_name : Option String)
    (sort : String) (limit offset : Nat) : List ItemRow :=
  let base :=
    match warehouse_name with
    | none => db.items
    | some n => db.items.filter (fun it => it.warehouse = some n)
  let sorted :=
    if sort = "qty" then
      base.mergeSort (fun a b =>
        match a.qty, b.qty with
        | PyFloat.num x, PyFloat.num y => x ≤ y
        | _, _ => true)
    else if sort = "sku" then
      base.mergeSort (fun a b => a.sku ≤ b.sku)
    else
      base.mergeSort (fun a b => a.name ≤ b.name)
  (sorted.drop offset).take limit

/-- Modelled from the spec: no `delete_warehouse` operation exists in
`db.py` (the repository has no code path that deletes a warehouse);
§3 of the specification states that deleting a warehouse must not
cascade to items, which reference warehouses only by a name copy with
no foreign key.  The modelled operation therefore removes the row from
`warehouses` and touches nothing else. -/
def delete_warehouse (db : Db) (name : String) : Bool × Db :=
  (db.warehouses.any (fun w => w.name = name),
   { db with
     warehouses := db.warehouses.filter (fun w => ¬ w.name = name),
     tick := db.tick + 1 })

/-! ## Bulk import parsing (`main.py`: `parse_bulk_lines`, `bulk_add_process`)

`parse_bulk_lines` splits the pasted block with `str.splitlines`, strips
each line, skips blanks and hands each surviving line to `csv.reader`
with `delimiter=","` and `skipinitialspace=True`.  The CSV dialect is
modelled as a character automaton: fields separated by commas, spaces
after a delimiter skipped, a double quote opening a quoted field only
in first position of a field, `""` escaping a quote inside one. -/

/-- Mode of the CSV automaton: at a field start (spaces skipped only
after a delimiter), inside an unquoted field, inside quotes, or just
past a quote inside a quoted field (deciding escape vs. close). -/
inductive CsvMode where
  | start (skip : Bool)
  | plain
  | quoted
  | quotedQuote
  deriving DecidableEq, Repr

/-- One step automaton for `csv.reader` on a single record. -/
def csvGo : List Char → CsvMode → List Char → List (List Char)
  | [], m, acc =>
    match m with
    | _ => [acc.reverse]
  | c :: rest, CsvMode.quoted, acc =>
    if c = '"' then csvGo rest CsvMode.quotedQuote acc
    else csvGo rest CsvMode.quoted (c :: acc)
  | c :: rest, CsvMode.quotedQuote, acc =>
    if c = '"' then csvGo rest CsvMode.quoted ('"' :: acc)
    else if c = ',' then acc.reverse :: csvGo rest (CsvMode.start true) []
    else csvGo rest CsvMode.plain (c :: acc)
  | c :: rest, CsvMode.start skip, acc =>
    if skip ∧ c = ' ' then csvGo rest (CsvMode.start skip) acc
    else if c = '"' then csvGo rest CsvMode.quoted acc
    else if c = ',' then acc.reverse :: csvGo rest (CsvMode.start true) []
    else csvGo rest CsvMode.plain (c :: acc)
  | c :: rest, CsvMode.plain, acc =>
    if c = ',' then acc.reverse :: csvGo rest (CsvMode.start true) []
    else csvGo rest CsvMode.plain (c :: acc)

/-- `csv.reader([line], delimiter=",", skipinitialspace=True)` on one
nonempty line. -/
def csvSplitLine (line : String) : List String :=
  (csvGo line.data (CsvMode.start false) []).map (fun l => ⟨l⟩)

/-- `str.splitlines` (ASCII scope: `\n`, `\r`, `\r\n`). -/
def splitlinesGo : List Char → List Char → List (List Char)
  | [], acc => if acc.isEmpty then [] else [acc.reverse]
  | '\r' :: '\n' :: rest, acc => acc.reverse :: splitlinesGo rest []
  | '\n' :: rest, acc => acc.reverse :: splitlinesGo rest []
  | '\r' :: rest, acc => acc.reverse :: splitlinesGo rest []
  | c :: rest, acc => splitlinesGo rest (c :: acc)

/-- `str.splitlines` for `String`. -/
def splitlinesPy (s : String) : List String :=
  (splitlinesGo s.data []).map (fun l => ⟨l⟩)

/-- `main.parse_bulk_lines`: split lines, strip, skip blanks, CSV-split
each remaining line. -/
def parse_bulk_lines (text : String) : List (List String) :=
  (splitlinesPy text).foldr
    (fun raw_line rows =>
      let line := pyStrip raw_line
      if line = "" then rows else csvSplitLine line :: rows)
    []

/-- Outcome of the `bulk_add_process` row loop. -/
structure BulkResult where
  created : Nat
  skipped : Nat
  errors : List String
  db : Db
  deriving DecidableEq, Repr

/-- One iteration of the `bulk_add_process` loop over `(idx, row)`:
validate the row independently and commit it, recording a per-row error
and continuing on failure. -/
def bulkRowStep (acc : BulkResult) (p : Nat × List String) :
    BulkResult :=
  let idx := p.1
  let row := p.2
  let sku := pyStrip (row.getD 0 "")
  let name := pyStrip (row.getD 1 "")
  let qty_raw := pyStrip (row.getD 2 "")
  let unit :=
    if row.length > 3 ∧ pyStrip (row.getD 3 "") ≠ "" then
      pyStrip (row.getD 3 "")
    else "шт"
  let location := pyStrip (row.getD 4 "")
  let warehouse := pyStrip (row.getD 5 "")
  let min_qty_raw := if row.length > 6 then pyStrip (row.getD 6 "") else "0"
  if sku = "" ∨ name = "" ∨ qty_raw = "" then
    { acc with errors :=
        acc.errors ++ ["Строка " ++ toString idx ++ ": нужно sku,name,qty"] }
  else
    match parse_number qty_raw with
    | none =>
      { acc with errors :=
          acc.errors ++ ["Строка " ++ toString idx ++ ": неверный qty"] }
    | some qty =>
      match parse_number min_qty_raw with
      | none =>
        { acc with errors :=
            acc.errors ++ ["Строка " ++ toString idx ++ ": неверный min_qty"] }
      | some min_qty =>
        let location := if location = "" then none else some location
        let warehouse := if warehouse = "" then none else some warehouse
        let db1 :=
          match warehouse with
          | some w =>
            if (get_warehouse_by_name acc.db w).isSome then acc.db
            else (add_warehouse acc.db w).2
          | none => acc.db
        let r := add_item db1 sku name qty unit location warehouse min_qty
        if r.1 then
          { acc with created := acc.created + 1, db := r.2 }
        else
          { acc with
            skipped := acc.skipped + 1
            db := r.2
            errors :=
              acc.errors ++ ["Строка " ++ toString idx ++ ": SKU уже существует"] }

/-- The `bulk_add_process` row loop (`for idx, row in enumerate(rows, 1)`). -/
def bulk_rows (db : Db) (rows : List (List String)) : BulkResult :=
  (rows.enum.map (fun p => (p.1 + 1, p.2))).foldl bulkRowStep
    { created := 0, skipped := 0, errors := [], db := db }

/-! ## Button texts (`constants.py`)

`constants.py` is imported by `main.py` and `keyboards.py` but is not
part of the provided sources.  Modelled from the spec: the dispatcher
only needs the button labels as fixed, pairwise distinct strings (each
menu handler filters on text equality); the concrete values below are
chosen to match the labels echoed in `cmd_help` and the cancel filter
set of `main.py`, and no claim depends on the exact spelling. -/

def BTN_CANCEL : String := "⏹️ Отмена"

def BTN_HELP : String := "ℹ️ Помощь"

def BTN_WAREHOUSE : String := "🏬 Склад"

def BTN_BULK_ADD : String := "📥 Массовая заливка"

def BTN_REPORTS : String := "📊 Отчеты"

def BTN_ADMIN : String := "🛠️ Админка"

def BTN_SETTINGS : String := "⚙️ Настройки"

def BTN_WAREHOUSES : String := "🏢 Склады"

def BTN_ADD_ITEM : String := "➕ Добавить товар"

def BTN_ADJUST_QTY : String := "➖ Изменить остаток"

def BTN_SET_QTY : String := "✅ Установить остаток"

def BTN_DELETE_ITEM : String := "🗑️ Удалить товар"

def BTN_SEARCH : String := "🔍 Поиск"

def BTN_LIST_ITEMS : String := "📋 Список товаров"

def BTN_LOW_STOCK : String := "⚠️ Низкие остатки"

def BTN_EXPORT_CSV : String := "📤 Экспорт CSV"

def BTN_HISTORY : String := "🗂️ История"

/-! ## Sessions (`states.py` + aiogram `FSMContext`)

One FSM state per `State()` of `states.py`; the aiogram data dict
becomes a record of optional fields (`update_data` merges,
`set_state` leaves the data untouched, `clear` resets both).
`location`/`warehouse` are doubly optional: the stored value is itself
an optional string, and Python's `data.get(k) is not None` test
distinguishes the two layers. -/

inductive FsmState where
  | addItem_sku
  | addItem_name
  | addItem_qty
  | addItem_unit
  | addItem_location
  | addItem_warehouse
  | addItem_min_qty
  | adjustItem_key
  | adjustItem_delta
  | adjustItem_note
  | setQty_key
  | setQty_qty
  | setQty_note
  | deleteItem_key
  | deleteItem_confirm
  | updateItem_key
  | updateItem_field
  | updateItem_value
  | searchItem_query
  | addAdmin_tg_id
  | addAdmin_name
  | removeAdmin_tg_id
  | addWarehouse_name
  | bulkAdd_lines
  deriving DecidableEq, Repr

structure SessData where
  sku : Option String := none
  name : Option String := none
  qty : Option PyFloat := none
  unit : Option String := none
  location : Option (Option String) := none
  warehouse : Option (Option String) := none
  min_qty : Option PyFloat := none
  itemId : Option Nat := none
  currentQty : Option PyFloat := none
  delta : Option PyFloat := none
  field : Option String := none
  presetField : Option String := none
  tgId : Option Nat := none
  deriving DecidableEq, Repr

structure Session where
  state : Option FsmState := none
  data : SessData := {}
  deriving DecidableEq, Repr

/-- The idle session (`state.clear()` / a fresh user). -/
def emptySession : Session := {}

/-- `config.Config`, reduced to what the handlers read. -/
structure Config where
  super_admins : List Nat
  deriving DecidableEq, Repr

/-- `main.is_super_admin`. -/
def is_super_admin (user_id : Nat) (config : Config) : Bool :=
  config.super_admins.contains user_id

/-- Result of one handler invocation: the store, the caller's session,
and the texts sent back (structured markup is presentation and is not
modelled). -/
structure StepResult where
  db : Db
  sess : Session
  replies : List String
  deriving DecidableEq, Repr

/-- `int(s)` for a possibly signed decimal string (Python `int()`:
strip, optional sign, digits). `none` models the raised `ValueError`. -/
def parseIntPy (s : String) : Option Int :=
  let t := pyStrip s
  match t.data with
  | '-' :: rest => if rest.isEmpty ∨ ¬ rest.all isDigitChar then none
                   else some (-(digitsToNat rest : Int))
  | '+' :: rest => if rest.isEmpty ∨ ¬ rest.all isDigitChar then none
                   else some (digitsToNat rest : Int)
  | l => if l.isEmpty ∨ ¬ l.all isDigitChar then none
         else some (digitsToNat l : Int)

/-! ### Presentation helpers (`utils.py` formatting)

The table/card formatters of `utils.py` only shape reply text; no claim
under study inspects their output, so column alignment, number
formatting and html escaping are abstracted to a stable rendering that
still depends on every row shown. -/

/-- `utils.format_item_card`, with layout details abstracted. -/
def format_item_card (item : ItemRow) : String :=
  "ID: " ++ toString item.id ++ "\nSKU: " ++ item.sku ++
  "\nНазвание: " ++ item.name

/-- `utils.format_items_table`, with layout details abstracted. -/
def format_items_table (items : List ItemRow) : String :=
  "<pre>" ++
    String.intercalate "\n" (items.map (fun i => i.sku ++ " " ++ i.name)) ++
  "</pre>"

/-! ## Pagination (`main.render_items_page`, `render_items_by_warehouse`) -/

def PAGE_SIZE : Nat := 10

/-- `total_pages = max(1, math.ceil(total / PAGE_SIZE))`. -/
def total_pages_calc (total : Nat) : Nat :=
  max 1 ((total + PAGE_SIZE - 1) / PAGE_SIZE)

/-- `page = max(1, min(page, total_pages))`. -/
def clamp_page (page : Int) (total_pages : Nat) : Int :=
  max 1 (min page (total_pages : Int))

/-- `main.render_items_page`: clamp the requested page, list the window,
return the text and the page count. -/
def render_items_page (db : Db) (page : Int) : String × Nat :=
  let total := count_items db
  let total_pages := total_pages_calc total
  let p := clamp_page page total_pages
  let items := list_items db PAGE_SIZE ((p - 1).toNat * PAGE_SIZE)
  if items.isEmpty then ("Товаров пока нет.", total_pages)
  else
    ("Список товаров (" ++ toString p ++ "/" ++ toString total_pages ++ ")\n"
       ++ format_items_table items,
     total_pages)

/-- `main.render_items_by_warehouse`: the same clamping over the
per-warehouse count. -/
def render_items_by_warehouse (db : Db) (warehouse_name : Option String)
    (sort : String) (page : Int) : String × Nat :=
  let total := count_items_by_warehouse db warehouse_name
  let total_pages := total_pages_calc total
  let p := clamp_page page total_pages
  let items := list_items_by_warehouse db warehouse_name sort PAGE_SIZE
    ((p - 1).toNat * PAGE_SIZE)
  let label := warehouse_name.getD "Все склады"
  if items.isEmpty then ("Товаров нет (" ++ label ++ ").", total_pages)
  else
    ("Склад: " ++ label ++ " | сортировка: " ++ sort ++ " (" ++ toString p
       ++ "/" ++ toString total_pages ++ ")\n" ++ format_items_table items,
     total_pages)

/-! ## Flow step handlers (`main.py`)

Each aiogram handler becomes a pure function.  Where a handler indexes
the FSM data dict directly (`data["sku"]`), a missing key raises
`KeyError` in Python, which aiogram's error middleware swallows without
committing anything; the model returns the inputs unchanged in that
(flow-unreachable) case. -/

/-- `add_item_sku` (state `AddItem.sku`): reject blank and
case-insensitive duplicates, else store and advance. -/
def add_item_sku (db : Db) (sess : Session) (t : String) : StepResult :=
  let sku := pyStrip t
  if sku = "" then
    { db := db, sess := sess,
      replies := ["SKU не может быть пустым. Введите SKU:"] }
  else if (get_item_by_sku db sku).isSome then
    { db := db, sess := sess,
      replies := ["Такой SKU уже есть. Введите другой SKU:"] }
  else
    { db := db,
      sess := { state := some FsmState.addItem_name,
                data := { sess.data with sku := some sku } },
      replies := ["Введите название товара:"] }

/-- `add_item_name` (state `AddItem.name`): store the name, fire the
prefill suggestion lookup, advance to the quantity step. -/
def add_item_name (db : Db) (sess : Session) (t : String) : StepResult :=
  let name := pyStrip t
  if name = "" then
    { db := db, sess := sess,
      replies := ["Название не может быть пустым. Введите название:"] }
  else
    let suggestions := search_items db name
    let hints :=
      if suggestions.isEmpty then []
      else ["Есть похожие товары. Выберите шаблон или пропустите:"]
    { db := db,
      sess := { state := some FsmState.addItem_qty,
                data := { sess.data with name := some name } },
      replies := hints ++ ["Введите начальный остаток (число):"] }

/-- `add_item_qty` (state `AddItem.qty`). -/
def add_item_qty (db : Db) (sess : Session) (t : String) : StepResult :=
  match parse_number t with
  | none =>
    { db := db, sess := sess, replies := ["Нужно число. Пример: 12.5"] }
  | some qty =>
    { db := db,
      sess := { state := some FsmState.addItem_unit,
                data := { sess.data with qty := some qty } },
      replies := ["Единица измерения (например, шт/кг). Можно '-' для 'шт':"] }

/-- `add_item_unit` (state `AddItem.unit`): `-` keeps a truthy prefilled
unit, `-`/blank otherwise defaults to `шт`. -/
def add_item_unit (db : Db) (sess : Session) (t : String) : StepResult :=
  let unit0 := pyStrip t
  let prefilledTruthy : Bool :=
    match sess.data.unit with
    | some u => ¬ u = ""
    | none => false
  let unit :=
    if unit0 = "-" ∧ prefilledTruthy then sess.data.unit.getD "шт"
    else if unit0 = "-" ∨ unit0 = "" then "шт"
    else unit0
  { db := db,
    sess := { state := some FsmState.addItem_location,
              data := { sess.data with unit := some unit } },
    replies := ["Локация на складе (можно '-' чтобы пропустить):"] }

/-- `add_item_location` (state `AddItem.location`): `-` keeps a
non-`None` prefilled location, else clears; advance to the
warehouse-select step. -/
def add_item_location (db : Db) (sess : Session) (t : String) : StepResult :=
  let loc0 := pyStrip t
  let location : Option String :=
    match sess.data.location with
    | some (some l) => if loc0 = "-" then some l else some loc0
    | _ => if loc0 = "-" then none else some loc0
  let hint :=
    match sess.data.warehouse with
    | some (some w) =>
      "Склад по шаблону: " ++ w ++ ". Выберите другой или пропустите:"
    | _ => "Выберите склад для товара:"
  { db := db,
    sess := { state := some FsmState.addItem_warehouse,
              data := { sess.data with location := some location } },
    replies := [hint] }

/-- `add_item_min` (state `AddItem.min_qty`): `-` reuses a prefilled
minimum, else the input must parse; then the commit runs `add_item`,
the session is cleared, and a duplicate-sku race reports failure. -/
def add_item_min (db : Db) (sess : Session) (t : String) : StepResult :=
  let minq : Option PyFloat :=
    if pyStrip t = "-" ∧ sess.data.min_qty.isSome then sess.data.min_qty
    else parse_number t
  match minq with
  | none =>
    { db := db, sess := sess, replies := ["Нужно число. Пример: 5"] }
  | some min_qty =>
    match sess.data.sku, sess.data.name, sess.data.qty, sess.data.unit with
    | some sku, some name, some qty, some unit =>
      let r := add_item db sku name qty unit
        (sess.data.location.getD none) (sess.data.warehouse.getD none) min_qty
      if r.1 then
        match get_item_by_sku r.2 sku with
        | some item =>
          { db := r.2, sess := emptySession,
            replies := ["Товар добавлен.\n" ++ format_item_card item] }
        | none =>
          { db := r.2, sess := emptySession, replies := [] }
      else
        { db := r.2, sess := emptySession,
          replies := ["Не удалось добавить товар (SKU уже существует)."] }
    | _, _, _, _ =>
      { db := db, sess := sess, replies := [] }

/-- `adjust_qty_key` (state `AdjustItem.key`). -/
def adjust_qty_key (db : Db) (sess : Session) (t : String) : StepResult :=
  match get_item_by_key db t with
  | none =>
    { db := db, sess := sess,
      replies := ["Товар не найден. Введите SKU или ID:"] }
  | some item =>
    { db := db,
      sess := { state := some FsmState.adjustItem_delta,
                data := { sess.data with
                          itemId := some item.id
                          currentQty := some item.qty } },
      replies := ["Товар найден:\n" ++ format_item_card item ++
                  "\n\nВведите изменение остатка (например +5 или -3.5):"] }

/-- `adjust_qty_delta` (state `AdjustItem.delta`). -/
def adjust_qty_delta (db : Db) (sess : Session) (t : String) : StepResult :=
  match parse_number t with
  | none =>
    { db := db, sess := sess, replies := ["Нужно число. Пример: +3 или -1.5"] }
  | some delta =>
    { db := db,
      sess := { state := some FsmState.adjustItem_note,
                data := { sess.data with delta := some delta } },
      replies := ["Комментарий (можно '-' чтобы пропустить):"] }

/-- `adjust_qty_note` (state `AdjustItem.note`): commit the additive
update plus one movement, then clear. -/
def adjust_qty_note (db : Db) (sess : Session) (uid : Nat) (t : String) :
    StepResult :=
  let note0 := pyStrip t
  let note : Option String := if note0 = "-" then none else some note0
  match sess.data.itemId, sess.data.delta with
  | some item_id, some delta =>
    let db1 := adjust_item_qty db item_id delta
    let db2 := add_movement db1 item_id delta note uid
    let card :=
      match get_item_by_id db2 item_id with
      | some item => format_item_card item
      | none => ""
    { db := db2, sess := emptySession,
      replies := ["Остаток обновлен.\n" ++ card] }
  | _, _ =>
    { db := db, sess := sess, replies := [] }

/-- `set_qty_key` (state `SetQty.key`): resolve the key and capture the
quantity read at resolution time into the session. -/
def set_qty_key (db : Db) (sess : Session) (t : String) : StepResult :=
  match get_item_by_key db t with
  | none =>
    { db := db, sess := sess,
      replies := ["Товар не найден. Введите SKU или ID:"] }
  | some item =>
    { db := db,
      sess := { state := some FsmState.setQty_qty,
                data := { sess.data with
                          itemId := some item.id
                          currentQty := some item.qty } },
      replies := ["Товар найден:\n" ++ format_item_card item ++
                  "\n\nВведите новый остаток (число):"] }

/-- `set_qty_value` (state `SetQty.qty`). -/
def set_qty_value (db : Db) (sess : Session) (t : String) : StepResult :=
  match parse_number t with
  | none =>
    { db := db, sess := sess, replies := ["Нужно число. Пример: 10"] }
  | some qty =>
    { db := db,
      sess := { state := some FsmState.setQty_note,
                data := { sess.data with qty := some qty } },
      replies := ["Комментарий (можно '-' чтобы пропустить):"] }

/-- `set_qty_note` (state `SetQty.note`): absolute overwrite plus one
movement whose delta is `new - captured`, then clear. -/
def set_qty_note (db : Db) (sess : Session) (uid : Nat) (t : String) :
    StepResult :=
  let note0 := pyStrip t
  let note : Option String := if note0 = "-" then none else some note0
  match sess.data.itemId, sess.data.qty, sess.data.currentQty with
  | some item_id, some qty, some current_qty =>
    let delta := qty.sub current_qty
    let db1 := update_item_qty db item_id qty
    let db2 := add_movement db1 item_id delta note uid
    let card :=
      match get_item_by_id db2 item_id with
      | some item => format_item_card item
      | none => ""
    { db := db2, sess := emptySession,
      replies := ["Остаток установлен.\n" ++ card] }
  | _, _, _ =>
    { db := db, sess := sess, replies := [] }

/-- `delete_item_key` (state `DeleteItem.key`). -/
def delete_item_key (db : Db) (sess : Session) (t : String) : StepResult :=
  match get_item_by_key db t with
  | none =>
    { db := db, sess := sess,
      replies := ["Товар не найден. Введите SKU или ID:"] }
  | some item =>
    { db := db,
      sess := { state := some FsmState.deleteItem_confirm,
                data := { sess.data with itemId := some item.id } },
      replies := ["Подтвердите удаление (напишите 'да'):\n" ++
                  format_item_card item] }

/-- `delete_item_confirm` (state `DeleteItem.confirm`): anything but the
literal `да` cancels; otherwise commit the cascading delete. -/
def delete_item_confirm (db : Db) (sess : Session) (t : String) :
    StepResult :=
  if ¬ pyLower (pyStrip t) = "да" then
    { db := db, sess := emptySession, replies := ["Удаление отменено."] }
  else
    match sess.data.itemId with
    | some item_id =>
      let r := delete_item db item_id
      if r.1 then
        { db := r.2, sess := emptySession, replies := ["Товар удален."] }
      else
        { db := r.2, sess := emptySession,
          replies := ["Не удалось удалить товар."] }
    | none =>
      { db := db, sess := sess, replies := [] }

/-- `search_run` (state `SearchItem.query`). -/
def search_run (db : Db) (t : String) : StepResult :=
  let items := search_items db (pyStrip t)
  if items.isEmpty then
    { db := db, sess := emptySession, replies := ["Ничего не найдено."] }
  else
    { db := db, sess := emptySession,
      replies := ["Результаты поиска:\n" ++ format_items_table items] }

/-- `warehouse_add_name` (state `AddWarehouse.name`): note — no
super-admin check appears anywhere in this handler. -/
def warehouse_add_name (db : Db) (sess : Session) (t : String) :
    StepResult :=
  let name := pyStrip t
  if name = "" then
    { db := db, sess := sess,
      replies := ["Название не может быть пустым."] }
  else
    let r := add_warehouse db name
    if r.1 then
      { db := r.2, sess := emptySession, replies := ["Склад добавлен."] }
    else
      { db := r.2, sess := emptySession,
        replies := ["Такой склад уже существует."] }

/-- `update_item_key` (state `UpdateItem.key`). -/
def update_item_key (db : Db) (sess : Session) (t : String) : StepResult :=
  match get_item_by_key db t with
  | none =>
    { db := db, sess := sess,
      replies := ["Товар не найден. Введите SKU или ID:"] }
  | some item =>
    match sess.data.presetField with
    | some preset =>
      { db := db,
        sess := { state := some FsmState.updateItem_value,
                  data := { sess.data with
                            itemId := some item.id
                            field := some preset } },
        replies := ["Введите новое значение для min_qty (число):"] }
    | none =>
      { db := db,
        sess := { state := some FsmState.updateItem_field,
                  data := { sess.data with itemId := some item.id } },
        replies := ["Выберите поле для изменения:"] }

/-- The enumerated updatable fields of `update_item_field`. -/
def updatableFields : List String :=
  ["name", "sku", "unit", "location", "warehouse", "min_qty"]

/-- `update_item_field` (state `UpdateItem.field`, text path). -/
def update_item_field (db : Db) (sess : Session) (t : String) : StepResult :=
  let field := pyLower (pyStrip t)
  if ¬ updatableFields.contains field then
    { db := db, sess := sess,
      replies := ["Нужно одно из: name, sku, unit, location, min_qty"] }
  else
    { db := db,
      sess := { state := some FsmState.updateItem_value,
                data := { sess.data with field := some field } },
      replies := ["Введите новое значение:"] }

/-- `update_item_value` (state `UpdateItem.value`): per-field typing,
then the sparse update; a sku collision aborts with a message. -/
def update_item_value (db : Db) (sess : Session) (t : String) : StepResult :=
  match sess.data.field, sess.data.itemId with
  | some field, some item_id =>
    let value_raw := pyStrip t
    let commit := fun (r : Bool × Db) =>
      if ¬ r.1 then
        { db := r.2, sess := emptySession,
          replies := ["Не удалось обновить данные (возможно, SKU уже существует)."] }
      else
        let card :=
          match get_item_by_id r.2 item_id with
          | some item => format_item_card item
          | none => ""
        { db := r.2, sess := emptySession,
          replies := ["Данные обновлены.\n" ++ card] }
    if field = "min_qty" then
      match parse_number value_raw with
      | none => { db := db, sess := sess, replies := ["Нужно число"] }
      | some v =>
        commit (update_item_fields db item_id none none none none none (some v))
    else if (field = "location" ∨ field = "warehouse") ∧ value_raw = "-" then
      -- value None: `update_item_fields` skips a `None` argument, so the
      -- `-` sentinel commits nothing but the timestamp (source behaviour).
      commit (update_item_fields db item_id none none none none none none)
    else if value_raw = "" then
      { db := db, sess := sess,
        replies := ["Значение не может быть пустым"] }
    else if field = "name" then
      commit (update_item_fields db item_id (some value_raw) none none none none none)
    else if field = "sku" then
      commit (update_item_fields db item_id none (some value_raw) none none none none)
    else if field = "unit" then
      commit (update_item_fields db item_id none none (some value_raw) none none none)
    else if field = "location" then
      commit (update_item_fields db item_id none none none (some value_raw) none none)
    else if field = "warehouse" then
      commit (update_item_fields db item_id none none none none (some value_raw) none)
    else
      { db := db, sess := sess, replies := [] }
  | _, _ =>
    { db := db, sess := sess, replies := [] }

/-- `admin_add_tg_id` (state `AddAdmin.tg_id`): the super-admin gate is
re-checked before anything else. -/
def admin_add_tg_id (config : Config) (db : Db) (sess : Session)
    (uid : Nat) (t : String) : StepResult :=
  if ¬ is_super_admin uid config then
    { db := db, sess := emptySession,
      replies := ["Недостаточно прав для управления админами."] }
  else if ¬ pyIsdigit (pyStrip t) then
    { db := db, sess := sess, replies := ["Нужен числовой ID"] }
  else
    { db := db,
      sess := { state := some FsmState.addAdmin_name,
                data := { sess.data with tgId := some (strToNat (pyStrip t)) } },
      replies := ["Имя/комментарий (можно '-'): "] }

/-- `admin_add_name` (state `AddAdmin.name`): gate re-checked, then the
insert commits and the session clears. -/
def admin_add_name (config : Config) (db : Db) (sess : Session)
    (uid : Nat) (t : String) : StepResult :=
  if ¬ is_super_admin uid config then
    { db := db, sess := emptySession,
      replies := ["Недостаточно прав для управления админами."] }
  else
    let name0 := pyStrip t
    let name : Option String := if name0 = "-" then none else some name0
    match sess.data.tgId with
    | some tg_id =>
      let r := add_admin db tg_id name
      if r.1 then
        { db := r.2, sess := emptySession, replies := ["Админ добавлен."] }
      else
        { db := r.2, sess := emptySession,
          replies := ["Админ уже существует."] }
    | none =>
      { db := db, sess := sess, replies := [] }

/-- `admin_remove_tg_id` (state `RemoveAdmin.tg_id`): gate re-checked,
then the unguarded delete — any admin row, the caller's own included. -/
def admin_remove_tg_id (config : Config) (db : Db) (sess : Session)
    (uid : Nat) (t : String) : StepResult :=
  if ¬ is_super_admin uid config then
    { db := db, sess := emptySession,
      replies := ["Недостаточно прав для управления админами."] }
  else if ¬ pyIsdigit (pyStrip t) then
    { db := db, sess := sess, replies := ["Нужен числовой ID"] }
  else
    let r := remove_admin db (strToNat (pyStrip t))
    if r.1 then
      { db := r.2, sess := emptySession, replies := ["Админ удален."] }
    else
      { db := r.2, sess := emptySession, replies := ["Админ не найден."] }

/-- `bulk_add_process` (state `BulkAdd.lines`): run the independent
per-row loop, then report `created`/`skipped` and up to ten errors. -/
def bulk_add_process (db : Db) (sess : Session) (t : String) : StepResult :=
  let rows := parse_bulk_lines t
  if rows.isEmpty then
    { db := db, sess := sess,
      replies := ["Список пуст. Пришлите строки по формату CSV."] }
  else
    let r := bulk_rows db rows
    let summary :=
      ["Готово. Добавлено: " ++ toString r.created ++ ". Пропущено: "
         ++ toString r.skipped ++ "."] ++
      (if r.errors.isEmpty then []
       else ["Ошибки:"] ++ r.errors.take 10 ++
         (if r.errors.length > 10 then
            ["... еще " ++ toString (r.errors.length - 10)]
          else []))
    { db := r.db, sess := emptySession,
      replies := [String.intercalate "\n" summary] }

/-- `str.startswith`, computed on the character lists. -/
def strStartsWith (s pre_ : String) : Bool :=
  s.data.take pre_.data.length = pre_.data

/-- `str.endswith`, computed on the character lists. -/
def strEndsWith (s post : String) : Bool :=
  s.data.drop (s.data.length - post.data.length) = post.data

/-- Drop the first `n` characters (Python slicing `s[n:]`). -/
def strDrop (s : String) (n : Nat) : String :=
  ⟨s.data.drop n⟩

/-- `str.split(sep)` for a one-character separator. -/
def strSplitGo (sep : Char) : List Char → List Char → List String
  | [], acc => [⟨acc.reverse⟩]
  | c :: rest, acc =>
    if c = sep then (⟨acc.reverse⟩ : String) :: strSplitGo sep rest []
    else strSplitGo sep rest (c :: acc)

/-- `str.split(sep)` for `String`. -/
def strSplit (s : String) (sep : Char) : List String :=
  strSplitGo sep s.data []

/-- IEEE `<=` on extended rationals (SQLite numeric comparison). -/
def PyFloat.leB : PyFloat → PyFloat → Bool
  | PyFloat.nan, _ => false
  | _, PyFloat.nan => false
  | PyFloat.num a, PyFloat.num b => a ≤ b
  | PyFloat.ninf, _ => true
  | _, PyFloat.inf => true
  | PyFloat.inf, _ => false
  | PyFloat.num _, PyFloat.ninf => false

/-- IEEE `<` on extended rationals. -/
def PyFloat.ltB (a b : PyFloat) : Bool :=
  PyFloat.leB a b ∧ ¬ a = b

/-- `Database.list_low_stock`: `min_qty > 0 AND qty <= min_qty`,
ordered ascending by quantity. -/
def list_low_stock (db : Db) (limit : Nat := 100) : List ItemRow :=
  ((db.items.filter (fun it =>
      PyFloat.ltB (PyFloat.num 0) it.min_qty ∧
      PyFloat.leB it.qty it.min_qty)).mergeSort (fun a b =>
        PyFloat.leB a.qty b.qty ∨ a.qty = b.qty)).take limit

/-! ## Callback-driven handlers (`main.py`) -/

/-- `add_item_prefill` (`prefill_item:` callbacks, any state): copy
unit/location/warehouse/min-quantity from the chosen template item into
the session data — a side-channel update, not a step transition. -/
def add_item_prefill (db : Db) (sess : Session) (data : String) :
    StepResult :=
  if strEndsWith data ":skip" then
    { db := db, sess := sess, replies := ["Шаблон пропущен."] }
  else
    let raw := strDrop data "prefill_item:".data.length
    if ¬ pyIsdigit raw then
      -- `int()` raises on a malformed id; the framework swallows it.
      { db := db, sess := sess, replies := [] }
    else
      match get_item_by_id db (strToNat raw) with
      | none =>
        { db := db, sess := sess, replies := ["Шаблон не найден."] }
      | some item =>
        { db := db,
          sess := { sess with data :=
                    { sess.data with
                      unit := some item.unit
                      location := some item.location
                      min_qty := some item.min_qty
                      warehouse := some item.warehouse } },
          replies := ["Шаблон применен: единица, локация, склад и мин. остаток взяты из выбранного товара."] }

/-- `add_item_warehouse_select` (state `AddItem.warehouse`,
`warehouse_select:` callbacks). -/
def add_item_warehouse_select (db : Db) (sess : Session) (data : String) :
    StepResult :=
  let raw_id := strDrop data "warehouse_select:".data.length
  if raw_id = "" ∨ raw_id = "0" then
    let data1 :=
      match sess.data.warehouse with
      | none => { sess.data with warehouse := some none }
      | some _ => sess.data
    { db := db,
      sess := { state := some FsmState.addItem_min_qty, data := data1 },
      replies := ["Минимальный остаток (число, можно 0):"] }
  else if ¬ pyIsdigit raw_id then
    { db := db, sess := sess, replies := [] }
  else
    match get_warehouse_by_id db (strToNat raw_id) with
    | none =>
      { db := db, sess := sess,
        replies := ["Склад не найден. Выберите из списка."] }
    | some wh =>
      { db := db,
        sess := { state := some FsmState.addItem_min_qty,
                  data := { sess.data with warehouse := some (some wh.name) } },
        replies := ["Минимальный остаток (число, можно 0):"] }

/-- `update_item_field_cb` (state `UpdateItem.field`, `update_field:`
callbacks). -/
def update_item_field_cb (db : Db) (sess : Session) (data : String) :
    StepResult :=
  let field := strDrop data "update_field:".data.length
  if ¬ updatableFields.contains field then
    { db := db, sess := sess, replies := ["Неверное поле."] }
  else
    { db := db,
      sess := { state := some FsmState.updateItem_value,
                data := { sess.data with field := some field } },
      replies := ["Введите новое значение:"] }

/-- `list_items_callback` (`list_items:` callbacks): pagination reply,
no mutation. -/
def list_items_callback (db : Db) (sess : Session) (data : String) :
    StepResult :=
  match parseIntPy ((strSplit data ':').getD 1 "") with
  | none => { db := db, sess := sess, replies := [] }
  | some page =>
    { db := db, sess := sess, replies := [(render_items_page db page).1] }

/-- `warehouse_filter` (`warehouse_filter:` callbacks): filtered listing
reply, no mutation. -/
def warehouse_filter (db : Db) (sess : Session) (data : String) :
    StepResult :=
  let parts := strSplit data ':'
  if ¬ parts.length = 4 then
    { db := db, sess := sess, replies := ["Неверный формат фильтра."] }
  else
    match parseIntPy (parts.getD 1 ""), parseIntPy (parts.getD 3 "") with
    | some wid, some page =>
      if wid = 0 then
        { db := db, sess := sess,
          replies := [(render_items_by_warehouse db none (parts.getD 2 "") page).1] }
      else
        match get_warehouse_by_id db wid.toNat with
        | none =>
          { db := db, sess := sess, replies := ["Склад не найден."] }
        | some wh =>
          { db := db, sess := sess,
            replies := [(render_items_by_warehouse db (some wh.name) (parts.getD 2 "") page).1] }
    | _, _ => { db := db, sess := sess, replies := [] }

/-! ## The dispatchers (`main.py` router wiring)

`dp.include_router(admin_router)` precedes
`dp.include_router(public_router)`, and `admin_router` carries the
`IsAdmin` filter on both event kinds (`filters.IsAdmin` queries the
admins table), so a non-admin identity falls through to the public
denial handlers before any admin handler runs.  Within `admin_router`,
aiogram tries handlers in registration order; the `if`-chains below
reproduce the source order of `main.py` line by line. -/

/-- The fixed denial reply of `cmd_start` / `public_fallback`. -/
def denialMessageText : String := "⛔ Доступ закрыт. Обратитесь к администратору."

/-- The fixed denial alert of `public_callback`. -/
def denialCallbackText : String := "⛔ Доступ закрыт"

/-- `show_main_menu`'s text. -/
def mainMenuText : String :=
  "🏠 Главное меню — выберите действие:\nПодсказка: можно жать кнопки или писать команды."

/-- The text-message dispatcher: `IsAdmin` gate, then the admin
router's message handlers in registration order, then the public
fallbacks. -/
def dispatchMessage (config : Config) (db : Db) (sess : Session)
    (uid : Nat) (t : String) : StepResult :=
  if ¬ is_admin db uid then
    -- public_router: `cmd_start` for `/start`, else `public_fallback`;
    -- both reply with the same fixed denial and touch nothing.
    { db := db, sess := sess, replies := [denialMessageText] }
  else if t = "/menu" then
    { db := db, sess := sess, replies := [mainMenuText] }
  else if t = "/admin" then
    { db := db, sess := sess, replies := [mainMenuText] }
  else if t = "/id" then
    { db := db, sess := sess,
      replies := ["Ваш Telegram ID: " ++ toString uid] }
  else if t = "/help" ∨ t = BTN_HELP then
    { db := db, sess := sess, replies := ["ℹ️ Помощь по боту‑складу"] }
  else if t = "/cancel" then
    { db := db, sess := emptySession, replies := ["⏹️ Действие отменено."] }
  else if t = BTN_CANCEL ∨ t = "Отмена" ∨ t = "отмена" ∨ t = "⏹️ Отмена" then
    if sess.state = none then
      { db := db, sess := sess, replies := [] }
    else
      { db := db, sess := emptySession, replies := ["⏹️ Действие отменено."] }
  else if t = BTN_WAREHOUSE then
    { db := db, sess := sess, replies := ["🏬 Раздел: Склад"] }
  else if t = BTN_BULK_ADD then
    { db := db, sess := { sess with state := some FsmState.bulkAdd_lines },
      replies := ["📥 Массовая заливка"] }
  else if t = BTN_REPORTS then
    { db := db, sess := sess, replies := ["📊 Раздел: Отчеты"] }
  else if t = BTN_ADMIN then
    { db := db, sess := sess, replies := ["🛠️ Админ‑панель"] }
  else if t = BTN_SETTINGS then
    { db := db, sess := sess, replies := ["⚙️ Настройки"] }
  else if t = BTN_WAREHOUSES then
    { db := db, sess := sess, replies := ["🏢 Склады"] }
  else if t = BTN_ADD_ITEM then
    { db := db, sess := { sess with state := some FsmState.addItem_sku },
      replies := ["Введите SKU товара (уникальный код):"] }
  else if sess.state = some FsmState.addItem_sku then
    add_item_sku db sess t
  else if sess.state = some FsmState.addItem_name then
    add_item_name db sess t
  else if sess.state = some FsmState.addItem_qty then
    add_item_qty db sess t
  else if sess.state = some FsmState.addItem_unit then
    add_item_unit db sess t
  else if sess.state = some FsmState.addItem_location then
    add_item_location db sess t
  else if sess.state = some FsmState.addItem_min_qty then
    add_item_min db sess t
  else if t = BTN_ADJUST_QTY then
    { db := db, sess := { sess with state := some FsmState.adjustItem_key },
      replies := ["Введите SKU или ID товара:"] }
  else if sess.state = some FsmState.adjustItem_key then
    adjust_qty_key db sess t
  else if sess.state = some FsmState.adjustItem_delta then
    adjust_qty_delta db sess t
  else if sess.state = some FsmState.adjustItem_note then
    adjust_qty_note db sess uid t
  else if t = BTN_SET_QTY then
    { db := db, sess := { sess with state := some FsmState.setQty_key },
      replies := ["Введите SKU или ID товара:"] }
  else if sess.state = some FsmState.setQty_key then
    set_qty_key db sess t
  else if sess.state = some FsmState.setQty_qty then
    set_qty_value db sess t
  else if sess.state = some FsmState.setQty_note then
    set_qty_note db sess uid t
  else if t = BTN_DELETE_ITEM then
    { db := db, sess := { sess with state := some FsmState.deleteItem_key },
      replies := ["Введите SKU или ID товара для удаления:"] }
  else if sess.state = some FsmState.deleteItem_key then
    delete_item_key db sess t
  else if sess.state = some FsmState.deleteItem_confirm then
    delete_item_confirm db sess t
  else if t = BTN_SEARCH then
    { db := db, sess := sess, replies := ["Выберите тип поиска:"] }
  else if sess.state = some FsmState.searchItem_query then
    search_run db t
  else if t = BTN_LIST_ITEMS then
    { db := db, sess := sess, replies := [(render_items_page db 1).1] }
  else if t = BTN_LOW_STOCK then
    let items := list_low_stock db
    { db := db, sess := sess,
      replies := [if items.isEmpty then "Низких остатков нет."
                  else "Низкие остатки:\n" ++ format_items_table items] }
  else if t = BTN_EXPORT_CSV then
    { db := db, sess := sess,
      replies := [if db.items.isEmpty then "Склад пуст. Экспортировать нечего."
                  else "Экспорт остатков"] }
  else if t = BTN_HISTORY then
    { db := db, sess := sess,
      replies := [if db.movements.isEmpty then "История пуста."
                  else "Последние движения:"] }
  else if sess.state = some FsmState.addWarehouse_name then
    warehouse_add_name db sess t
  else if sess.state = some FsmState.updateItem_key then
    update_item_key db sess t
  else if sess.state = some FsmState.updateItem_field then
    update_item_field db sess t
  else if sess.state = some FsmState.updateItem_value then
    update_item_value db sess t
  else if sess.state = some FsmState.addAdmin_tg_id then
    admin_add_tg_id config db sess uid t
  else if sess.state = some FsmState.addAdmin_name then
    admin_add_name config db sess uid t
  else if sess.state = some FsmState.removeAdmin_tg_id then
    admin_remove_tg_id config db sess uid t
  else if sess.state = some FsmState.bulkAdd_lines then
    bulk_add_process db sess t
  else
    { db := db, sess := sess,
      replies := ["Не понял команду. Используйте меню."] }

/-- The callback dispatcher: `IsAdmin` gate, then the admin router's
callback handlers in registration order, then `public_callback` (which
acknowledges silently for admins). -/
def dispatchCallback (config : Config) (db : Db) (sess : Session)
    (uid : Nat) (data : String) : StepResult :=
  if ¬ is_admin db uid then
    { db := db, sess := sess, replies := [denialCallbackText] }
  else if data = "bulk_add" then
    { db := db, sess := { sess with state := some FsmState.bulkAdd_lines },
      replies := ["📥 Массовая заливка"] }
  else if data = "settings_menu" then
    { db := db, sess := sess, replies := ["⚙️ Настройки"] }
  else if data = "warehouses_menu" then
    { db := db, sess := sess, replies := ["🏢 Склады"] }
  else if data = "back_to_main" then
    { db := db, sess := sess, replies := ["Главное меню"] }
  else if data = "add_item" then
    { db := db, sess := { sess with state := some FsmState.addItem_sku },
      replies := ["Введите SKU товара (уникальный код):"] }
  else if strStartsWith data "prefill_item:" then
    add_item_prefill db sess data
  else if sess.state = some FsmState.addItem_warehouse ∧
      strStartsWith data "warehouse_select:" then
    add_item_warehouse_select db sess data
  else if data = "adjust_qty" then
    { db := db, sess := { sess with state := some FsmState.adjustItem_key },
      replies := ["Введите SKU или ID товара:"] }
  else if data = "set_qty" then
    { db := db, sess := { sess with state := some FsmState.setQty_key },
      replies := ["Введите SKU или ID товара:"] }
  else if data = "delete_item" then
    { db := db, sess := { sess with state := some FsmState.deleteItem_key },
      replies := ["Введите SKU или ID товара для удаления:"] }
  else if data = "search" then
    { db := db, sess := { sess with state := some FsmState.searchItem_query },
      replies := ["Введите запрос для поиска (SKU или часть названия):"] }
  else if strStartsWith data "list_items:" then
    list_items_callback db sess data
  else if data = "low_stock" then
    let items := list_low_stock db
    { db := db, sess := sess,
      replies := [if items.isEmpty then "Низких остатков нет."
                  else "Низкие остатки:\n" ++ format_items_table items] }
  else if data = "export_csv" then
    { db := db, sess := sess,
      replies := [if db.items.isEmpty then "Склад пуст. Экспортировать нечего."
                  else "Экспорт остатков"] }
  else if data = "history" then
    { db := db, sess := sess,
      replies := [if db.movements.isEmpty then "История пуста."
                  else "Последние движения:"] }
  else if data = "update_item" then
    { db := db, sess := { sess with state := some FsmState.updateItem_key },
      replies := ["Введите SKU или ID товара для редактирования:"] }
  else if data = "set_min" then
    -- `state.clear()` then `update_data(preset_field=...)` then `set_state`.
    { db := db,
      sess := { state := some FsmState.updateItem_key,
                data := { presetField := some "min_qty" } },
      replies := ["Введите SKU или ID товара для установки мин. остатка:"] }
  else if data = "warehouses_list" then
    { db := db, sess := sess,
      replies := [if db.warehouses.isEmpty then "Склады еще не добавлены."
                  else "Склады:"] }
  else if data = "warehouse_add" then
    { db := db, sess := { sess with state := some FsmState.addWarehouse_name },
      replies := ["Введите название склада:"] }
  else if data = "warehouse_items" then
    { db := db, sess := sess, replies := ["Выберите склад для фильтра:"] }
  else if strStartsWith data "warehouse_filter:" then
    warehouse_filter db sess data
  else if sess.state = some FsmState.updateItem_field ∧
      strStartsWith data "update_field:" then
    update_item_field_cb db sess data
  else if data = "admins_list" then
    { db := db, sess := sess, replies := ["Админы:"] }
  else if data = "admin_add" then
    if ¬ is_super_admin uid config then
      { db := db, sess := sess,
        replies := ["Недостаточно прав для управления админами."] }
    else
      { db := db, sess := { sess with state := some FsmState.addAdmin_tg_id },
        replies := ["Введите Telegram ID нового админа:"] }
  else if data = "admin_remove" then
    if ¬ is_super_admin uid config then
      { db := db, sess := sess,
        replies := ["Недостаточно прав для управления админами."] }
    else
      { db := db, sess := { sess with state := some FsmState.removeAdmin_tg_id },
        replies := ["Введите Telegram ID для удаления из админов:"] }
  else if data = "backup_db" then
    { db := db, sess := sess, replies := ["Резервная копия БД"] }
  else
    -- public_callback: an admin identity is acknowledged silently.
    { db := db, sess := sess, replies := [] }

/-- The texts consumed by handlers registered before the flow-step
handlers of `admin_router` (commands, the cancel set, the menu
buttons): a message equal to one of these is intercepted before it can
reach any state-bound handler. -/
def interceptedText (t : String) : Bool :=
  t = "/menu" ∨ t = "/admin" ∨ t = "/id" ∨ t = "/help" ∨ t = BTN_HELP ∨
  t = "/cancel" ∨ t = BTN_CANCEL ∨ t = "Отмена" ∨ t = "отмена" ∨
  t = "⏹️ Отмена" ∨ t = BTN_WAREHOUSE ∨ t = BTN_BULK_ADD ∨
  t = BTN_REPORTS ∨ t = BTN_ADMIN ∨ t = BTN_SETTINGS ∨ t = BTN_WAREHOUSES ∨
  t = BTN_ADD_ITEM ∨ t = BTN_ADJUST_QTY ∨ t = BTN_SET_QTY ∨
  t = BTN_DELETE_ITEM ∨ t = BTN_SEARCH ∨ t = BTN_LIST_ITEMS ∨
  t = BTN_LOW_STOCK ∨ t = BTN_EXPORT_CSV ∨ t = BTN_HISTORY

/-- The claim's accepted set, stated declaratively: after stripping
surrounding whitespace the input is a nonempty run of digits optionally
followed by a single comma-or-dot separator and a nonempty run of
digits. -/
def isSimpleDecimal (s : String) : Bool :=
  let t := pyStripL s.data
  let headDigits : Bool := ¬ (t.takeWhile isDigitChar).isEmpty
  let tailOk : Bool :=
    match t.dropWhile isDigitChar with
    | [] => true
    | sep :: d2 =>
      (sep = ',' ∨ sep = '.') ∧ (¬ d2.isEmpty : Bool) ∧ d2.all isDigitChar
  headDigits && tailOk

/-! ## Theorems for the claims -/

/-- C7: for every user identity not present in the admins table and
every interaction type (text message or structured callback selection),
the system replies with the fixed denial message, never executes any
flow-step handler, and mutates neither session state nor the Inventory
Store. -/
theorem c7_nonadmin_boundary_rejection (config : Config) (db : Db)
    (sess : Session) (uid : Nat) (t : String)
    (h : is_admin db uid = false) :
    dispatchMessage config db sess uid t =
      { db := db, sess := sess, replies := [denialMessageText] } ∧
    dispatchCallback config db sess uid t =
      { db := db, sess := sess, replies := [denialCallbackText] } := by
  constructor
  · unfold dispatchMessage
    simp [h]
  · unfold dispatchCallback
    simp [h]

/-- Witness for C7 at a concrete non-admin identity. -/
theorem c7_nonadmin_boundary_rejection_witness :
    dispatchMessage { super_admins := [1] }
        { admins := [{ id := 1, tg_id := 1, name := none, added_at := 0 }] }
        emptySession 99 "/start" =
      { db := { admins := [{ id := 1, tg_id := 1, name := none, added_at := 0 }] },
        sess := emptySession, replies := [denialMessageText] } :=
  (c7_nonadmin_boundary_rejection { super_admins := [1] }
    { admins := [{ id := 1, tg_id := 1, name := none, added_at := 0 }] }
    emptySession 99 "/start" (by decide)).1

/-- C6: for every flow and every step of that flow, processing one of
the reserved cancel tokens (`/cancel`, or a text in the
`cancel_any_state` filter set) clears the user's session
unconditionally, returning that user to Idle, and performs no Inventory
Store mutation for that flow's pending operation.  (The identity must
pass the admin gate for the token to be recognised at all.) -/
theorem c6_cancel_clears_without_mutation (config : Config) (db : Db)
    (sess : Session) (uid : Nat) (st : FsmState) (t : String)
    (hadm : is_admin db uid = true)
    (hst : sess.state = some st)
    (htok : t = "/cancel" ∨ t = BTN_CANCEL ∨ t = "Отмена" ∨ t = "отмена") :
    dispatchMessage config db sess uid t =
      { db := db, sess := emptySession,
        replies := ["⏹️ Действие отменено."] } := by
  rcases htok with h | h | h | h <;> subst h <;>
    · unfold dispatchMessage
      simp [hadm, BTN_CANCEL, BTN_HELP, hst]

/-- Witness for C6: cancelling mid-`SetQty` leaves the store alone. -/
theorem c6_cancel_clears_without_mutation_witness :
    dispatchMessage { super_admins := [1] }
        { admins := [{ id := 1, tg_id := 7, name := none, added_at := 0 }] }
        { state := some FsmState.setQty_note,
          data := { itemId := some 1, qty := some (PyFloat.num 5),
                    currentQty := some (PyFloat.num 2) } }
        7 "Отмена" =
      { db := { admins := [{ id := 1, tg_id := 7, name := none, added_at := 0 }] },
        sess := emptySession, replies := ["⏹️ Действие отменено."] } :=
  c6_cancel_clears_without_mutation { super_admins := [1] }
    { admins := [{ id := 1, tg_id := 7, name := none, added_at := 0 }] }
    { state := some FsmState.setQty_note,
      data := { itemId := some 1, qty := some (PyFloat.num 5),
                currentQty := some (PyFloat.num 2) } }
    7 FsmState.setQty_note "Отмена" (by decide) rfl
    (Or.inr (Or.inr (Or.inl rfl)))

/-- C8: `delete_item` removes the item together with every movement
referencing it (the `ON DELETE CASCADE` of the movements table), while
the modelled warehouse deletion leaves every item — in particular its
`warehouse` name field — untouched (dangling soft reference). -/
theorem c8_delete_cascade_and_soft_warehouse_ref (db : Db)
    (item_id : Nat) (wname : String) :
    (∀ m ∈ (delete_item db item_id).2.movements, ¬ m.item_id = item_id) ∧
    (∀ m ∈ db.movements, ¬ m.item_id = item_id →
      m ∈ (delete_item db item_id).2.movements) ∧
    (∀ it ∈ (delete_item db item_id).2.items, ¬ it.id = item_id) ∧
    ((delete_item db item_id).1 = db.items.any (fun it => it.id = item_id)) ∧
    ((delete_warehouse db wname).2.items = db.items) := by
  refine ⟨?_, ?_, ?_, rfl, rfl⟩
  · intro m hm
    simp only [delete_item, List.mem_filter] at hm
    simpa using hm.2
  · intro m hm hne
    simp only [delete_item, List.mem_filter]
    exact ⟨hm, by simpa using hne⟩
  · intro it hit
    simp only [delete_item, List.mem_filter] at hit
    simpa using hit.2

/-- Witness for C8, instantiated at a concrete movement of a two-item
store: the surviving movement does not reference the deleted item, and
the modelled warehouse deletion leaves the item rows unchanged. -/
theorem c8_delete_cascade_and_soft_warehouse_ref_witness :
    ¬ ({ id := 2, item_id := 2, delta := PyFloat.num 2, note := none,
         admin_tg_id := 7, created_at := 0 } : MovementRow).item_id = 1 ∧
    ((delete_warehouse
        { items := [{ id := 1, sku := "A", name := "a", qty := PyFloat.num 1,
                      unit := "шт", location := none,
                      warehouse := some "W", min_qty := PyFloat.num 0,
                      updated_at := 0 }],
          warehouses := [{ id := 1, name := "W", created_at := 0 }] }
        "W").2.items =
      [{ id := 1, sku := "A", name := "a", qty := PyFloat.num 1,
         unit := "шт", location := none,
         warehouse := some "W", min_qty := PyFloat.num 0,
         updated_at := 0 }]) :=
  ⟨(c8_delete_cascade_and_soft_warehouse_ref
      { items := [{ id := 1, sku := "A", name := "a", qty := PyFloat.num 1,
                    unit := "шт", location := none,
                    warehouse := some "W", min_qty := PyFloat.num 0,
                    updated_at := 0 },
                  { id := 2, sku := "B", name := "b", qty := PyFloat.num 2,
                    unit := "шт", location := none,
                    warehouse := some "W", min_qty := PyFloat.num 0,
                    updated_at := 0 }],
        warehouses := [{ id := 1, name := "W", created_at := 0 }],
        movements := [{ id := 1, item_id := 1, delta := PyFloat.num 1,
                        note := none, admin_tg_id := 7, created_at := 0 },
                      { id := 2, item_id := 2, delta := PyFloat.num 2,
                        note := none, admin_tg_id := 7, created_at := 0 },
                      { id := 3, item_id := 1, delta := PyFloat.num 3,
                        note := none, admin_tg_id := 7, created_at := 0 }] }
      1 "W").1
    { id := 2, item_id := 2, delta := PyFloat.num 2, note := none,
      admin_tg_id := 7, created_at := 0 } (by decide),
   (c8_delete_cascade_and_soft_warehouse_ref
      { items := [{ id := 1, sku := "A", name := "a", qty := PyFloat.num 1,
                    unit := "шт", location := none,
                    warehouse := some "W", min_qty := PyFloat.num 0,
                    updated_at := 0 }],
        warehouses := [{ id := 1, name := "W", created_at := 0 }] }
      1 "W").2.2.2.2⟩

/-- C1: the claim states that sku uniqueness is case-insensitive and
enforced at every write.  The schema's `UNIQUE` constraint on
`items.sku` uses SQLite's default BINARY collation, so the bulk-import
commit path (which relies on that constraint alone) accepts a second
item whose sku differs only in letter case: importing `A-1` and then
`a-1` creates both rows, with no error, although `get_item_by_sku` and
the AddItem sku step treat the two as the same key.  This theorem
evaluates the embedded code at that failing input. -/
theorem c1_case_insensitive_sku_uniqueness_fails_on_bulk_import :
    (bulk_rows emptyDb (parse_bulk_lines "A-1,Widget,10\na-1,Other,5")).created
        = 2 ∧
    (bulk_rows emptyDb (parse_bulk_lines "A-1,Widget,10\na-1,Other,5")).errors
        = [] ∧
    ((bulk_rows emptyDb (parse_bulk_lines "A-1,Widget,10\na-1,Other,5")).db.items.map
        (fun it => it.sku)) = ["A-1", "a-1"] ∧
    pyLower "A-1" = pyLower "a-1" ∧ ¬ ("A-1" : String) = "a-1" := by
  decide

/-- C4: BulkAdd validates and commits each row independently and
continues past per-row failures: for the lines `A-1,Widget,10`,
`A-1,Dup,5`, `bad,line` the report is created=1, skipped=1, with
exactly one row-level missing-field error (attributed to the `bad,line`
row), in whichever order the three rows are pasted. -/
theorem c4_bulkadd_partial_failure_semantics :
    ((bulk_rows emptyDb
        (parse_bulk_lines "A-1,Widget,10\nA-1,Dup,5\nbad,line")).errors
      = ["Строка 2: SKU уже существует", "Строка 3: нужно sku,name,qty"]) ∧
    ([ "A-1,Widget,10\nA-1,Dup,5\nbad,line",
       "A-1,Widget,10\nbad,line\nA-1,Dup,5",
       "A-1,Dup,5\nA-1,Widget,10\nbad,line",
       "A-1,Dup,5\nbad,line\nA-1,Widget,10",
       "bad,line\nA-1,Widget,10\nA-1,Dup,5",
       "bad,line\nA-1,Dup,5\nA-1,Widget,10" ].all (fun input =>
      let r := bulk_rows emptyDb (parse_bulk_lines input)
      r.created = 1 ∧ r.skipped = 1 ∧
      (r.errors.filter (fun e => strEndsWith e "нужно sku,name,qty")).length = 1)
      = true) := by
  decide

/-- C2 counterexample: the claim includes the AddWarehouse flow among
those whose super-admin gate is re-verified at every step.  But
`warehouse_add_start` / `warehouse_add_name` contain no super-admin
check at all: here an admin (id 2) who is NOT in the configured
super-admin set ({1}) submits the name step of an active AddWarehouse
flow, receives the success reply, and the warehouses table is mutated —
not the denial-with-no-mutation the claim requires. -/
theorem c2_counterexample_addwarehouse_step_not_gated :
    (is_super_admin 2 { super_admins := [1] } = false) ∧
    (dispatchMessage { super_admins := [1] }
        { admins := [{ id := 1, tg_id := 1, name := none, added_at := 0 },
                     { id := 2, tg_id := 2, name := none, added_at := 0 }] }
        { state := some FsmState.addWarehouse_name, data := {} }
        2 "Новый склад").replies = ["Склад добавлен."] ∧
    (dispatchMessage { super_admins := [1] }
        { admins := [{ id := 1, tg_id := 1, name := none, added_at := 0 },
                     { id := 2, tg_id := 2, name := none, added_at := 0 }] }
        { state := some FsmState.addWarehouse_name, data := {} }
        2 "Новый склад").db.warehouses.map (fun w => w.name)
      = ["Новый склад"] := by
  refine ⟨by decide, ?_, ?_⟩ <;> decide

/-- C2 (amended): for the AddAdmin and RemoveAdmin flows the
super-admin check is re-verified at every step: any step input that
reaches a step handler of an active AddAdmin/RemoveAdmin flow from a
caller outside the configured super-admin set yields the fixed denial,
clears the session, and performs no store mutation.  The AddWarehouse
flow performs no super-admin check at any step (see the
counterexample); any admin may complete it. -/
theorem c2_superadmin_recheck_addadmin_removeadmin (config : Config)
    (db : Db) (sess : Session) (uid : Nat) (t : String)
    (hadm : is_admin db uid = true)
    (hsup : is_super_admin uid config = false)
    (hint : interceptedText t = false)
    (hst : sess.state = some FsmState.addAdmin_tg_id ∨
           sess.state = some FsmState.addAdmin_name ∨
           sess.state = some FsmState.removeAdmin_tg_id) :
    dispatchMessage config db sess uid t =
      { db := db, sess := emptySession,
        replies := ["Недостаточно прав для управления админами."] } := by
  simp only [interceptedText, Bool.or_eq_false_iff, decide_eq_false_iff_not,
    not_or] at hint
  obtain ⟨h1, h2, h3, h4, h5, h6, h7, h8, h9, h10, h11, h12, h13, h14,
    h15, h16, h17, h18, h19, h20, h21, h22, h23, h24, h25⟩ := hint
  rcases hst with hst | hst | hst <;>
    · unfold dispatchMessage
      simp [hadm, hst, h1, h2, h3, h4, h5, h6, h7, h8, h9, h10, h11, h12,
        h13, h14, h15, h16, h17, h18, h19, h20, h21, h22, h23, h24, h25,
        admin_add_tg_id, admin_add_name, admin_remove_tg_id, hsup]

/-- Witness for C2 (amended): a plain admin (not super-admin) inside an
active AddAdmin flow is denied at the tg-id step. -/
theorem c2_superadmin_recheck_addadmin_removeadmin_witness :
    dispatchMessage { super_admins := [1] }
        { admins := [{ id := 1, tg_id := 2, name := none, added_at := 0 }] }
        { state := some FsmState.addAdmin_tg_id, data := {} } 2 "555" =
      { db := { admins := [{ id := 1, tg_id := 2, name := none, added_at := 0 }] },
        sess := emptySession,
        replies := ["Недостаточно прав для управления админами."] } :=
  c2_superadmin_recheck_addadmin_removeadmin { super_admins := [1] }
    { admins := [{ id := 1, tg_id := 2, name := none, added_at := 0 }] }
    { state := some FsmState.addAdmin_tg_id, data := {} } 2 "555"
    (by decide) (by decide) (by decide) (Or.inl rfl)

/-! ### Frame lemmas: which operations can touch the admins table -/

/-- `add_item` never writes the admins table. -/
theorem add_item_admins (db : Db) (sku name : String) (qty : PyFloat)
    (unit : String) (location warehouse : Option String)
    (min_qty : PyFloat) :
    (add_item db sku name qty unit location warehouse min_qty).2.admins
      = db.admins := by
  unfold add_item
  split <;> rfl

/-- `add_warehouse` never writes the admins table. -/
theorem add_warehouse_admins (db : Db) (name : String) :
    (add_warehouse db name).2.admins = db.admins := by
  unfold add_warehouse
  split <;> rfl

/-- `update_item_qty` never writes the admins table. -/
theorem update_item_qty_admins (db : Db) (item_id : Nat) (q : PyFloat) :
    (update_item_qty db item_id q).admins = db.admins := rfl

/-- `adjust_item_qty` never writes the admins table. -/
theorem adjust_item_qty_admins (db : Db) (item_id : Nat) (d : PyFloat) :
    (adjust_item_qty db item_id d).admins = db.admins := rfl

/-- `update_item_fields` never writes the admins table. -/
theorem update_item_fields_admins (db : Db) (item_id : Nat)
    (name sku unit location warehouse : Option String)
    (min_qty : Option PyFloat) :
    (update_item_fields db item_id name sku unit location warehouse
        min_qty).2.admins = db.admins := by
  simp only [update_item_fields]
  repeat' split
  all_goals rfl

/-- `delete_item` never writes the admins table. -/
theorem delete_item_admins (db : Db) (item_id : Nat) :
    (delete_item db item_id).2.admins = db.admins := rfl

/-- `add_movement` never writes the admins table. -/
theorem add_movement_admins (db : Db) (item_id : Nat) (delta : PyFloat)
    (note : Option String) (uid : Nat) :
    (add_movement db item_id delta note uid).admins = db.admins := by
  unfold add_movement
  split <;> rfl

/-- One bulk row never writes the admins table. -/
theorem bulkRowStep_admins (acc : BulkResult) (p : Nat × List String) :
    (bulkRowStep acc p).db.admins = acc.db.admins := by
  simp only [bulkRowStep]
  repeat' split
  all_goals simp [add_item_admins, add_warehouse_admins]

/-- Folding bulk rows never writes the admins table. -/
theorem foldl_bulkRowStep_admins (l : List (Nat × List String))
    (acc : BulkResult) :
    (l.foldl bulkRowStep acc).db.admins = acc.db.admins := by
  induction l generalizing acc with
  | nil => rfl
  | cons a l ih => simp [List.foldl_cons, ih, bulkRowStep_admins]

/-- The whole bulk loop never writes the admins table. -/
theorem bulk_rows_admins (db : Db) (rows : List (List String)) :
    (bulk_rows db rows).db.admins = db.admins := by
  unfold bulk_rows
  rw [foldl_bulkRowStep_admins]

/-- `add_item_min`'s commit never writes the admins table. -/
theorem add_item_min_admins (db : Db) (sess : Session) (t : String) :
    (add_item_min db sess t).db.admins = db.admins := by
  simp only [add_item_min]
  repeat' split
  all_goals simp [add_item_admins]

/-- `adjust_qty_note`'s commit never writes the admins table. -/
theorem adjust_qty_note_admins (db : Db) (sess : Session) (uid : Nat)
    (t : String) :
    (adjust_qty_note db sess uid t).db.admins = db.admins := by
  simp only [adjust_qty_note]
  repeat' split
  all_goals simp [add_movement_admins, adjust_item_qty_admins]

/-- `set_qty_note`'s commit never writes the admins table. -/
theorem set_qty_note_admins (db : Db) (sess : Session) (uid : Nat)
    (t : String) :
    (set_qty_note db sess uid t).db.admins = db.admins := by
  simp only [set_qty_note]
  repeat' split
  all_goals simp [add_movement_admins, update_item_qty_admins]

/-- `delete_item_confirm`'s commit never writes the admins table. -/
theorem delete_item_confirm_admins (db : Db) (sess : Session) (t : String) :
    (delete_item_confirm db sess t).db.admins = db.admins := by
  simp only [delete_item_confirm]
  repeat' split
  all_goals simp [delete_item_admins]

/-- `update_item_value`'s commit never writes the admins table. -/
theorem update_item_value_admins (db : Db) (sess : Session) (t : String) :
    (update_item_value db sess t).db.admins = db.admins := by
  simp only [update_item_value]
  repeat' split
  all_goals simp [update_item_fields_admins]

/-- `warehouse_add_name`'s commit never writes the admins table. -/
theorem warehouse_add_name_admins (db : Db) (sess : Session) (t : String) :
    (warehouse_add_name db sess t).db.admins = db.admins := by
  simp only [warehouse_add_name]
  repeat' split
  all_goals simp [add_warehouse_admins]

/-- `bulk_add_process` never writes the admins table. -/
theorem bulk_add_process_admins (db : Db) (sess : Session) (t : String) :
    (bulk_add_process db sess t).db.admins = db.admins := by
  simp only [bulk_add_process]
  repeat' split
  all_goals simp [bulk_rows_admins]

/-- `add_item_prefill` never writes the store. -/
theorem add_item_prefill_db (db : Db) (sess : Session) (data : String) :
    (add_item_prefill db sess data).db = db := by
  simp only [add_item_prefill]
  repeat' split
  all_goals rfl

/-- `add_item_warehouse_select` never writes the store. -/
theorem add_item_warehouse_select_db (db : Db) (sess : Session)
    (data : String) :
    (add_item_warehouse_select db sess data).db = db := by
  simp only [add_item_warehouse_select]
  repeat' split
  all_goals rfl

/-- `update_item_field_cb` never writes the store. -/
theorem update_item_field_cb_db (db : Db) (sess : Session) (data : String) :
    (update_item_field_cb db sess data).db = db := by
  simp only [update_item_field_cb]
  repeat' split
  all_goals rfl

/-- `list_items_callback` never writes the store. -/
theorem list_items_callback_db (db : Db) (sess : Session) (data : String) :
    (list_items_callback db sess data).db = db := by
  simp only [list_items_callback]
  repeat' split
  all_goals rfl

/-- `warehouse_filter` never writes the store. -/
theorem warehouse_filter_db (db : Db) (sess : Session) (data : String) :
    (warehouse_filter db sess data).db = db := by
  simp only [warehouse_filter]
  repeat' split
  all_goals rfl

/-- No callback handler writes the Inventory Store at all: the callback
dispatcher returns the database unchanged in every branch. -/
theorem dispatchCallback_db_unchanged (config : Config) (db : Db)
    (sess : Session) (uid : Nat) (data : String) :
    (dispatchCallback config db sess uid data).db = db := by
  simp only [dispatchCallback, apply_ite (fun r : StepResult => r.db),
    add_item_prefill_db, add_item_warehouse_select_db,
    update_item_field_cb_db, list_items_callback_db, warehouse_filter_db,
    ite_self]

/-- `add_item_sku` never writes the store. -/
theorem add_item_sku_db (db : Db) (sess : Session) (t : String) :
    (add_item_sku db sess t).db = db := by
  simp only [add_item_sku]
  repeat' split
  all_goals rfl

/-- `add_item_name` never writes the store. -/
theorem add_item_name_db (db : Db) (sess : Session) (t : String) :
    (add_item_name db sess t).db = db := by
  simp only [add_item_name]
  repeat' split
  all_goals rfl

/-- `add_item_qty` never writes the store. -/
theorem add_item_qty_db (db : Db) (sess : Session) (t : String) :
    (add_item_qty db sess t).db = db := by
  simp only [add_item_qty]
  repeat' split
  all_goals rfl

/-- `add_item_unit` never writes the store. -/
theorem add_item_unit_db (db : Db) (sess : Session) (t : String) :
    (add_item_unit db sess t).db = db := rfl

/-- `add_item_location` never writes the store. -/
theorem add_item_location_db (db : Db) (sess : Session) (t : String) :
    (add_item_location db sess t).db = db := by
  simp only [add_item_location]

/-- `adjust_qty_key` never writes the store. -/
theorem adjust_qty_key_db (db : Db) (sess : Session) (t : String) :
    (adjust_qty_key db sess t).db = db := by
  simp only [adjust_qty_key]
  repeat' split
  all_goals rfl

/-- `adjust_qty_delta` never writes the store. -/
theorem adjust_qty_delta_db (db : Db) (sess : Session) (t : String) :
    (adjust_qty_delta db sess t).db = db := by
  simp only [adjust_qty_delta]
  repeat' split
  all_goals rfl

/-- `set_qty_key` never writes the store. -/
theorem set_qty_key_db (db : Db) (sess : Session) (t : String) :
    (set_qty_key db sess t).db = db := by
  simp only [set_qty_key]
  repeat' split
  all_goals rfl

/-- `set_qty_value` never writes the store. -/
theorem set_qty_value_db (db : Db) (sess : Session) (t : String) :
    (set_qty_value db sess t).db = db := by
  simp only [set_qty_value]
  repeat' split
  all_goals rfl

/-- `delete_item_key` never writes the store. -/
theorem delete_item_key_db (db : Db) (sess : Session) (t : String) :
    (delete_item_key db sess t).db = db := by
  simp only [delete_item_key]
  repeat' split
  all_goals rfl

/-- `search_run` never writes the store. -/
theorem search_run_db (db : Db) (t : String) :
    (search_run db t).db = db := by
  simp only [search_run]
  repeat' split
  all_goals rfl

/-- `update_item_key` never writes the store. -/
theorem update_item_key_db (db : Db) (sess : Session) (t : String) :
    (update_item_key db sess t).db = db := by
  simp only [update_item_key]
  repeat' split
  all_goals rfl

/-- `update_item_field` never writes the store. -/
theorem update_item_field_db (db : Db) (sess : Session) (t : String) :
    (update_item_field db sess t).db = db := by
  simp only [update_item_field]
  repeat' split
  all_goals rfl

/-- `admin_add_tg_id` never writes the store (it only gates and stores
the id in the session). -/
theorem admin_add_tg_id_db (config : Config) (db : Db) (sess : Session)
    (uid : Nat) (t : String) :
    (admin_add_tg_id config db sess uid t).db = db := by
  simp only [admin_add_tg_id]
  repeat' split
  all_goals rfl

/-- `warehouse_add_name` never writes the admins table (already shown);
the message dispatcher as a whole can change the admins table only
from the `AddAdmin.name` and `RemoveAdmin.tg_id` step handlers. -/
theorem dispatchMessage_admins_frame (config : Config) (db : Db)
    (sess : Session) (uid : Nat) (t : String)
    (hna : ¬ sess.state = some FsmState.addAdmin_name)
    (hnr : ¬ sess.state = some FsmState.removeAdmin_tg_id) :
    (dispatchMessage config db sess uid t).db.admins = db.admins := by
  simp only [dispatchMessage,
    apply_ite (fun r : StepResult => r.db.admins), hna, hnr,
    add_item_sku_db, add_item_name_db, add_item_qty_db, add_item_unit_db,
    add_item_location_db, add_item_min_admins, adjust_qty_key_db,
    adjust_qty_delta_db, adjust_qty_note_admins, set_qty_key_db,
    set_qty_value_db, set_qty_note_admins, delete_item_key_db,
    delete_item_confirm_admins, search_run_db, update_item_key_db,
    update_item_field_db, update_item_value_admins,
    warehouse_add_name_admins, admin_add_tg_id_db,
    bulk_add_process_admins, ite_self, if_false]

/-- C10: for every tg_id currently in the admins table — configured
super-admins and the caller's own identity included — `remove_admin`
deletes the row and returns true, after which `is_admin` is false; the
`RemoveAdmin.tg_id` step performs no self-removal or super-admin guard
beyond the caller gate, so a super-admin can remove any id, their own
included; and inside the event loop the admins table is written only by
the `AddAdmin.name` / `RemoveAdmin.tg_id` step handlers (configured
super-admins are re-inserted only at startup by `ensure_admins`, which
no dispatcher branch calls). -/
theorem c10_remove_admin_unguarded_and_admins_frame (config : Config)
    (db : Db) (sess : Session) (uid tg : Nat) (t : String) :
    (is_admin db tg = true →
      (remove_admin db tg).1 = true ∧
      (remove_admin db tg).2.admins
        = db.admins.filter (fun a => ¬ a.tg_id = tg) ∧
      is_admin (remove_admin db tg).2 tg = false) ∧
    (is_super_admin uid config = true →
      pyIsdigit (pyStrip t) = true →
      strToNat (pyStrip t) = uid →
      is_admin db uid = true →
      admin_remove_tg_id config db sess uid t =
        { db := (remove_admin db uid).2, sess := emptySession,
          replies := ["Админ удален."] }) ∧
    (¬ sess.state = some FsmState.addAdmin_name →
      ¬ sess.state = some FsmState.removeAdmin_tg_id →
      (dispatchMessage config db sess uid t).db.admins = db.admins) ∧
    ((dispatchCallback config db sess uid t).db = db) := by
  refine ⟨?_, ?_, ?_, ?_⟩
  · intro h
    refine ⟨h, rfl, ?_⟩
    simp only [is_admin, remove_admin]
    rw [List.any_eq_false]
    intro x hx
    simpa using (List.mem_filter.mp hx).2
  · intro hsup hdig hid hadm
    unfold admin_remove_tg_id
    simp only [hsup, hdig, hid]
    simp [remove_admin, is_admin] at hadm ⊢
    simpa [remove_admin] using hadm
  · exact dispatchMessage_admins_frame config db sess uid t
  · exact dispatchCallback_db_unchanged config db sess uid t

/-- Witness for C10: a configured super-admin (id 5) removes their own
admin row; the dispatcher elsewhere leaves the admins table alone. -/
theorem c10_remove_admin_unguarded_and_admins_frame_witness :
    (remove_admin { admins := [{ id := 1, tg_id := 5, name := none, added_at := 0 }] } 5).1 = true ∧
    is_admin (remove_admin { admins := [{ id := 1, tg_id := 5, name := none, added_at := 0 }] } 5).2 5 = false ∧
    admin_remove_tg_id { super_admins := [5] }
        { admins := [{ id := 1, tg_id := 5, name := none, added_at := 0 }] }
        emptySession 5 "5" =
      { db := (remove_admin { admins := [{ id := 1, tg_id := 5, name := none, added_at := 0 }] } 5).2,
        sess := emptySession, replies := ["Админ удален."] } ∧
    (dispatchMessage { super_admins := [5] }
        { admins := [{ id := 1, tg_id := 5, name := none, added_at := 0 }] }
        emptySession 5 "5").db.admins =
      ({ admins := [{ id := 1, tg_id := 5, name := none, added_at := 0 }] }
        : Db).admins :=
  ⟨((c10_remove_admin_unguarded_and_admins_frame { super_admins := [5] }
      { admins := [{ id := 1, tg_id := 5, name := none, added_at := 0 }] }
      emptySession 5 5 "5").1 (by decide)).1,
   ((c10_remove_admin_unguarded_and_admins_frame { super_admins := [5] }
      { admins := [{ id := 1, tg_id := 5, name := none, added_at := 0 }] }
      emptySession 5 5 "5").1 (by decide)).2.2,
   (c10_remove_admin_unguarded_and_admins_frame { super_admins := [5] }
      { admins := [{ id := 1, tg_id := 5, name := none, added_at := 0 }] }
      emptySession 5 5 "5").2.1 (by decide) (by decide) (by decide)
      (by decide),
   (c10_remove_admin_unguarded_and_admins_frame { super_admins := [5] }
      { admins := [{ id := 1, tg_id := 5, name := none, added_at := 0 }] }
      emptySession 5 5 "5").2.2.1 (by decide) (by decide)⟩

/-- Setting one row's quantity does not change which ids are present. -/
theorem any_id_map_set_qty (l : List ItemRow) (i : Nat) (q : PyFloat)
    (tk : Nat) :
    ((l.map (fun it => if it.id = i then
        { it with qty := q, updated_at := tk } else it)).any
      (fun it => it.id = i)) = l.any (fun it => it.id = i) := by
  induction l with
  | nil => rfl
  | cons a l ih =>
    simp only [List.map_cons, List.any_cons, ih]
    by_cases h : a.id = i <;> simp [h]

/-- After the overwrite, every row carrying the target id holds the new
quantity. -/
theorem mem_map_set_qty (l : List ItemRow) (i : Nat) (q : PyFloat)
    (tk : Nat) :
    ∀ it ∈ l.map (fun it => if it.id = i then
        { it with qty := q, updated_at := tk } else it),
      it.id = i → it.qty = q := by
  intro it hit hid
  rcases List.mem_map.mp hit with ⟨a, _, rfl⟩
  by_cases h : a.id = i
  · simp [h]
  · simp only [if_neg h] at hid ⊢
    exact absurd hid h

/-- C3: completing a SetQuantity flow sets the item's quantity to the
new value and records exactly one Movement whose delta equals
`newQty - (quantity read at key resolution)`, even when the stored
quantity was mutated between key resolution (against `db1`) and commit
(against `db2`). -/
theorem c3_setqty_movement_delta_from_resolution_read (db1 db2 : Db)
    (sess : Session) (uid : Nat) (key t2 t3 : String) (item : ItemRow)
    (q1 : PyFloat)
    (hres : get_item_by_key db1 key = some item)
    (hq : parse_number t2 = some q1)
    (hlive : db2.items.any (fun it => it.id = item.id) = true) :
    (∀ it ∈ (set_qty_note db2
        ((set_qty_value db2 ((set_qty_key db1 sess key).sess) t2).sess)
        uid t3).db.items, it.id = item.id → it.qty = q1) ∧
    (set_qty_note db2
        ((set_qty_value db2 ((set_qty_key db1 sess key).sess) t2).sess)
        uid t3).db.movements =
      db2.movements ++
        [{ id := db2.nextMovementId, item_id := item.id,
           delta := q1.sub item.qty,
           note := if pyStrip t3 = "-" then none else some (pyStrip t3),
           admin_tg_id := uid, created_at := db2.tick + 1 }] ∧
    (set_qty_note db2
        ((set_qty_value db2 ((set_qty_key db1 sess key).sess) t2).sess)
        uid t3).sess = emptySession := by
  simp only [set_qty_key, hres, set_qty_value, hq, set_qty_note,
    update_item_qty, add_movement, any_id_map_set_qty, hlive, if_pos]
  refine ⟨?_, ?_, ?_⟩
  · exact mem_map_set_qty db2.items item.id q1 db2.tick
  · simp
  · simp

/-- Witness for C3: item resolved at qty 7, store mutated to qty 100 by
another operation, new value 12,5 — the single recorded movement's
delta is 12.5 − 7 (the resolution-time read), not 12.5 − 100. -/
theorem c3_setqty_movement_delta_from_resolution_read_witness :
    (set_qty_note
        { items := [⟨1, "X-1", "Item", PyFloat.num 100, "шт", none, none, PyFloat.num 0, 0⟩] }
        ((set_qty_value
            { items := [⟨1, "X-1", "Item", PyFloat.num 100, "шт", none, none, PyFloat.num 0, 0⟩] }
            ((set_qty_key
                { items := [⟨1, "X-1", "Item", PyFloat.num 7, "шт", none, none, PyFloat.num 0, 0⟩] }
                emptySession " x-1 ").sess)
            "12,5").sess)
        9 "note").db.movements =
      [⟨1, 1, (PyFloat.num (mkRat 25 2)).sub (PyFloat.num 7), some "note", 9, 1⟩] ∧
    (set_qty_note
        { items := [⟨1, "X-1", "Item", PyFloat.num 100, "шт", none, none, PyFloat.num 0, 0⟩] }
        ((set_qty_value
            { items := [⟨1, "X-1", "Item", PyFloat.num 100, "шт", none, none, PyFloat.num 0, 0⟩] }
            ((set_qty_key
                { items := [⟨1, "X-1", "Item", PyFloat.num 7, "шт", none, none, PyFloat.num 0, 0⟩] }
                emptySession " x-1 ").sess)
            "12,5").sess)
        9 "note").sess = emptySession := by
  have h := c3_setqty_movement_delta_from_resolution_read
    { items := [⟨1, "X-1", "Item", PyFloat.num 7, "шт", none, none, PyFloat.num 0, 0⟩] }
    { items := [⟨1, "X-1", "Item", PyFloat.num 100, "шт", none, none, PyFloat.num 0, 0⟩] }
    emptySession 9 " x-1 " "12,5" "note"
    ⟨1, "X-1", "Item", PyFloat.num 7, "шт", none, none, PyFloat.num 0, 0⟩
    (PyFloat.num (mkRat 25 2)) (by decide) (by decide) (by decide)
  exact ⟨h.2.1, h.2.2⟩

/-- C5 counterexample: over N = 0 items the code reports one page
(`max(1, ceil(0/10)) = 1`) while the claim's `ceil(N/P)` is zero, so
"returns ceil(N/P) pages" fails at the empty inventory. -/
theorem c5_counterexample_zero_items :
    total_pages_calc 0 = 1 ∧
    Nat.ceil ((0 : ℚ) / (PAGE_SIZE : ℚ)) = 0 := by
  constructor
  · rfl
  · simp

/-- The Nat-division form of the page count equals the claim's ceiling
expression. -/
theorem ceil_div_pagesize (n : Nat) :
    Nat.ceil ((n : ℚ) / (PAGE_SIZE : ℚ)) = (n + PAGE_SIZE - 1) / PAGE_SIZE := by
  simp only [PAGE_SIZE]
  rcases Nat.eq_zero_or_pos n with rfl | hn
  · simp
  · rw [Nat.ceil_eq_iff (by omega)]
    push_cast
    constructor
    · rw [lt_div_iff₀ (by norm_num : (0 : ℚ) < 10)]
      exact_mod_cast
        (by omega : ((n + 10 - 1) / 10 - 1) * 10 < n)
    · rw [div_le_iff₀ (by norm_num : (0 : ℚ) < 10)]
      exact_mod_cast
        (by omega : n ≤ ((n + 10 - 1) / 10) * 10)

/-- C5 (amended): the paginated listing over N items with the fixed
page size P = 10 exposes `max(1, ceil(N/P))` pages — an empty
inventory still renders one (empty) page — and the requested page is
clamped into `[1, total_pages]`: below 1 to 1, beyond the maximum to
the last page, and left unchanged in range. -/
theorem c5_pagination_page_count_and_clamping (db : Db) (n : Nat)
    (p : Int) :
    total_pages_calc n = max 1 (Nat.ceil ((n : ℚ) / (PAGE_SIZE : ℚ))) ∧
    (render_items_page db p).2 = total_pages_calc (count_items db) ∧
    (p < 1 → clamp_page p (total_pages_calc n) = 1) ∧
    ((total_pages_calc n : Int) < p →
      clamp_page p (total_pages_calc n) = (total_pages_calc n : Int)) ∧
    (1 ≤ p → p ≤ (total_pages_calc n : Int) →
      clamp_page p (total_pages_calc n) = p) := by
  refine ⟨?_, ?_, ?_, ?_, ?_⟩
  · rw [ceil_div_pagesize]
    rfl
  · simp only [render_items_page]
    split
    all_goals rfl
  · intro h
    simp only [clamp_page, total_pages_calc, PAGE_SIZE]
    omega
  · intro h
    simp only [clamp_page, total_pages_calc, PAGE_SIZE] at h ⊢
    omega
  · intro h1 h2
    simp only [clamp_page, total_pages_calc, PAGE_SIZE] at h2 ⊢
    omega

/-- Witness for C5 at N = 25 (three pages): page −3 clamps to 1, page
99 clamps to the last page, page 2 stays. -/
theorem c5_pagination_page_count_and_clamping_witness :
    clamp_page (-3) (total_pages_calc 25) = 1 ∧
    clamp_page 99 (total_pages_calc 25) = (total_pages_calc 25 : Int) ∧
    clamp_page 2 (total_pages_calc 25) = 2 :=
  ⟨(c5_pagination_page_count_and_clamping emptyDb 25 (-3)).2.2.1
      (by decide),
   (c5_pagination_page_count_and_clamping emptyDb 25 99).2.2.2.1
      (by decide),
   (c5_pagination_page_count_and_clamping emptyDb 25 2).2.2.2.2
      (by decide) (by decide)⟩

/-- Everything a digit character is not. -/
theorem isDigitChar_facts (c : Char) (h : isDigitChar c = true) :
    pyLowerChar c = c ∧ ¬ c = ' ' ∧ ¬ c = ',' ∧ ¬ c = '+' ∧ ¬ c = '-' ∧
    ¬ c = 'i' ∧ ¬ c = 'n' ∧ ¬ c = '.' ∧ ¬ c = '_' := by
  simp only [isDigitChar, Bool.or_eq_true, decide_eq_true_eq] at h
  rcases h with rfl | rfl | rfl | rfl | rfl | rfl | rfl | rfl | rfl | rfl <;>
    exact (by decide)

/-- `takeDigitpartGo` consumes exactly a run of digits when what
follows is empty or starts with a dot. -/
theorem takeDigitpartGo_digits (d rest : List Char)
    (hd : ∀ c ∈ d, isDigitChar c = true)
    (hrest : rest = [] ∨ ∃ r2, rest = '.' :: r2) :
    takeDigitpartGo (d ++ rest) = (d, rest) := by
  induction d with
  | nil =>
    simp only [List.nil_append]
    rcases hrest with rfl | ⟨r2, rfl⟩
    · rw [takeDigitpartGo.eq_def]
    · rw [takeDigitpartGo.eq_def]
      simp [(by decide : isDigitChar '.' = false),
        (by decide : ¬ '.' = '_')]
  | cons a d ih =>
    have ha : isDigitChar a = true := hd a (by simp)
    rw [List.cons_append, takeDigitpartGo.eq_def]
    simp [ha, ih (fun c hc => hd c (by simp [hc]))]

/-- `takeDigitpart` consumes exactly a run of digits when what follows
is empty or starts with a dot. -/
theorem takeDigitpart_digits (c : Char) (d rest : List Char)
    (hc : isDigitChar c = true)
    (hd : ∀ x ∈ d, isDigitChar x = true)
    (hrest : rest = [] ∨ ∃ r2, rest = '.' :: r2) :
    takeDigitpart (c :: (d ++ rest)) = some (c :: d, rest) := by
  simp [takeDigitpart, hc, takeDigitpartGo_digits d rest hd hrest]

/-- A digit-headed list is none of the float special tokens after
lower-casing. -/
theorem digits_not_special (c : Char) (l : List Char)
    (hc : isDigitChar c = true) :
    ¬ ((c :: l).map pyLowerChar = "inf".data ∨
       (c :: l).map pyLowerChar = "infinity".data) ∧
    ¬ (c :: l).map pyLowerChar = "nan".data := by
  have hfix := (isDigitChar_facts c hc).1
  have hi := (isDigitChar_facts c hc).2.2.2.2.2.1
  have hn := (isDigitChar_facts c hc).2.2.2.2.2.2.1
  constructor
  · rintro (h | h) <;>
      · rw [List.map_cons, hfix] at h
        exact absurd (List.head_eq_of_cons_eq h) (by simpa using hi)
  · intro h
    rw [List.map_cons, hfix] at h
    exact absurd (List.head_eq_of_cons_eq h) (by simpa using hn)

/-- A nonempty digit run, optionally a dot and a second nonempty digit
run, is accepted by the unsigned float grammar. -/
theorem parseUnsignedFloat_digits (c : Char) (d rest : List Char)
    (hc : isDigitChar c = true)
    (hd : ∀ x ∈ d, isDigitChar x = true)
    (hrest : rest = [] ∨
      ∃ b d2, rest = '.' :: b :: d2 ∧ isDigitChar b = true ∧
        ∀ x ∈ d2, isDigitChar x = true) :
    (parseUnsignedFloat (c :: (d ++ rest))).isSome = true := by
  rcases hrest with rfl | ⟨b, d2, rfl, hb, hd2⟩
  · rw [show (c :: (d ++ []) : List Char) = c :: (d ++ []) from rfl]
    simp only [parseUnsignedFloat,
      takeDigitpart_digits c d [] hc hd (Or.inl rfl)]
    simp [parseExponent]
  · simp only [parseUnsignedFloat,
      takeDigitpart_digits c d ('.' :: b :: d2) hc hd
        (Or.inr ⟨b :: d2, rfl⟩)]
    have h2 : takeDigitpart (b :: (d2 ++ [])) = some (b :: d2, []) :=
      takeDigitpart_digits b d2 [] hb hd2 (Or.inl rfl)
    rw [List.append_nil] at h2
    simp [h2, parseExponent]

/-- Every whitespace-wrapped decimal with a comma or dot separator is
accepted by `parse_number`. -/
theorem parse_number_accepts_simple_decimal (s : String)
    (h : isSimpleDecimal s = true) :
    (parse_number s).isSome = true := by
  unfold isSimpleDecimal at h
  simp only [Bool.and_eq_true, decide_eq_true_eq] at h
  obtain ⟨h1, h2⟩ := h
  have hsplit := List.takeWhile_append_dropWhile isDigitChar
    (l := pyStripL s.data)
  have hd1 : ∀ x ∈ (pyStripL s.data).takeWhile isDigitChar,
      isDigitChar x = true := fun x hx => List.mem_takeWhile_imp hx
  obtain ⟨c, d, hcd⟩ : ∃ c d,
      (pyStripL s.data).takeWhile isDigitChar = c :: d := by
    rcases hl : (pyStripL s.data).takeWhile isDigitChar with _ | ⟨c, d⟩
    · rw [hl] at h1
      simp at h1
    · exact ⟨c, d, rfl⟩
  have hc0 : isDigitChar c = true :=
    hd1 c (by rw [hcd]; exact List.mem_cons_self c d)
  have hd : ∀ x ∈ d, isDigitChar x = true :=
    fun x hx => hd1 x (by rw [hcd]; exact List.mem_cons_of_mem c hx)
  rcases hr : (pyStripL s.data).dropWhile isDigitChar with _ | ⟨sep, d2⟩
  · -- pure digit run
    have ht : pyStripL s.data = c :: (d ++ []) := by
      rw [← hsplit, hcd, hr, List.cons_append]
    have hall : ∀ x ∈ c :: (d ++ []), isDigitChar x = true := by
      intro x hx
      rcases List.mem_cons.mp hx with rfl | hx
      · exact hc0
      · exact hd x (by simpa using hx)
    have hfil : (c :: (d ++ [])).filter (fun x => x ≠ ' ') =
        c :: (d ++ []) :=
      List.filter_eq_self.mpr (fun a ha => by
        simpa using (isDigitChar_facts a (hall a ha)).2.1)
    have hmap : (c :: (d ++ [])).map
        (fun x => if x = ',' then '.' else x) = c :: (d ++ []) := by
      refine (List.map_congr_left ?_).trans (List.map_id _)
      intro a ha
      rw [if_neg (isDigitChar_facts a (hall a ha)).2.2.1]
      rfl
    unfold parse_number
    rw [ht]
    simp only [hfil, hmap]
    rw [if_neg (by simp)]
    simp only [pyFloatOfChars]
    rw [if_neg (isDigitChar_facts c hc0).2.2.2.1,
      if_neg (isDigitChar_facts c hc0).2.2.2.2.1]
    rw [if_neg (digits_not_special c (d ++ []) hc0).1,
      if_neg (digits_not_special c (d ++ []) hc0).2]
    obtain ⟨q, hq⟩ := Option.isSome_iff_exists.mp
      (parseUnsignedFloat_digits c d [] hc0 hd (Or.inl rfl))
    rw [hq]
    rfl
  · -- digits, separator, digits
    rw [hr] at h2
    simp only [decide_eq_true_eq, Bool.and_eq_true] at h2
    obtain ⟨hsep, hd2ne, hd2all⟩ := h2
    obtain ⟨b, d2', hbd⟩ : ∃ b d2', d2 = b :: d2' := by
      rcases d2 with _ | ⟨b, d2'⟩
      · simp at hd2ne
      · exact ⟨b, d2', rfl⟩
    subst hbd
    have hb : isDigitChar b = true := by
      have := List.all_eq_true.mp hd2all b (List.mem_cons_self b d2')
      simpa using this
    have hd2' : ∀ x ∈ d2', isDigitChar x = true := by
      intro x hx
      have := List.all_eq_true.mp hd2all x (List.mem_cons_of_mem b hx)
      simpa using this
    have hsepne : ¬ sep = ' ' := by
      rcases hsep with rfl | rfl <;> decide
    have hsepcm : (if sep = ',' then '.' else sep) = '.' := by
      rcases hsep with rfl | rfl <;> simp
    have ht : pyStripL s.data = c :: (d ++ (sep :: b :: d2')) := by
      rw [← hsplit, hcd, hr, List.cons_append]
    have hfil : (c :: (d ++ (sep :: b :: d2'))).filter (fun x => x ≠ ' ') =
        c :: (d ++ (sep :: b :: d2')) :=
      List.filter_eq_self.mpr (fun a ha => by
        rcases List.mem_cons.mp ha with rfl | ha
        · simpa using (isDigitChar_facts a hc0).2.1
        · rcases List.mem_append.mp ha with ha | ha
          · simpa using (isDigitChar_facts a (hd a ha)).2.1
          · rcases List.mem_cons.mp ha with rfl | ha
            · simpa using hsepne
            · rcases List.mem_cons.mp ha with rfl | ha
              · simpa using (isDigitChar_facts a hb).2.1
              · simpa using (isDigitChar_facts a (hd2' a ha)).2.1)
    have hmapd : d.map (fun x => if x = ',' then '.' else x) = d := by
      refine (List.map_congr_left ?_).trans (List.map_id _)
      intro a ha
      rw [if_neg (isDigitChar_facts a (hd a ha)).2.2.1]
      rfl
    have hmapd2 : d2'.map (fun x => if x = ',' then '.' else x) = d2' := by
      refine (List.map_congr_left ?_).trans (List.map_id _)
      intro a ha
      rw [if_neg (isDigitChar_facts a (hd2' a ha)).2.2.1]
      rfl
    have hmap : (c :: (d ++ (sep :: b :: d2'))).map
        (fun x => if x = ',' then '.' else x) =
        c :: (d ++ ('.' :: b :: d2')) := by
      rw [List.map_cons, List.map_append, List.map_cons, List.map_cons,
        if_neg (isDigitChar_facts c hc0).2.2.1,
        if_neg (isDigitChar_facts b hb).2.2.1, hsepcm, hmapd, hmapd2]
    unfold parse_number
    rw [ht]
    simp only [hfil, hmap]
    rw [if_neg (by simp)]
    simp only [pyFloatOfChars]
    rw [if_neg (isDigitChar_facts c hc0).2.2.2.1,
      if_neg (isDigitChar_facts c hc0).2.2.2.2.1]
    rw [if_neg (digits_not_special c (d ++ ('.' :: b :: d2')) hc0).1,
      if_neg (digits_not_special c (d ++ ('.' :: b :: d2')) hc0).2]
    obtain ⟨q, hq⟩ := Option.isSome_iff_exists.mp
      (parseUnsignedFloat_digits c d ('.' :: b :: d2') hc0 hd
        (Or.inr ⟨b, d2', rfl, hb, hd2'⟩))
    rw [hq]
    rfl

/-- C9 counterexample: the claim says every input that is not a
decimal number with comma/dot separator yields an invalid result, but
`parse_number` delegates to Python `float()`, which accepts `inf`:
the embedded parser returns a value for it (likewise `1e5`). -/
theorem c9_counterexample_parse_number_accepts_inf :
    isSimpleDecimal "inf" = false ∧
    parse_number "inf" = some PyFloat.inf ∧
    isSimpleDecimal "1e5" = false ∧
    parse_number "1e5" = some (PyFloat.num 100000) := by
  refine ⟨by decide, by decide, by decide, by decide⟩

/-- C9 (amended): after stripping surrounding whitespace (and removing
interior ASCII spaces) `parse_number` accepts every decimal number
written with either a comma or a dot as the decimal separator; beyond
the claim's set it also accepts the full Python `float()` syntax —
explicit signs, scientific notation, underscore digit grouping, the
tokens inf/infinity/nan — and it rejects strings outside that syntax,
e.g. the empty string, alphabetic text, doubled separators or a bare
separator. -/
theorem c9_parse_number_accepts_decimals_and_python_float_forms :
    (∀ s : String, isSimpleDecimal s = true →
      (parse_number s).isSome = true) ∧
    parse_number "1e5" = some (PyFloat.num 100000) ∧
    parse_number "+1_0,5" = some (PyFloat.num (mkRat 21 2)) ∧
    parse_number "-INFINITY" = some PyFloat.ninf ∧
    parse_number "nan" = some PyFloat.nan ∧
    parse_number " 1 000,5 " = some (PyFloat.num (mkRat 2001 2)) ∧
    parse_number "" = none ∧
    parse_number "abc" = none ∧
    parse_number "1.2.3" = none ∧
    parse_number "1,2,3" = none ∧
    parse_number "." = none ∧
    parse_number "1e" = none ∧
    parse_number "--5" = none := by
  refine ⟨parse_number_accepts_simple_decimal, ?_⟩
  refine ⟨by decide, by decide, by decide, by decide, by decide, by decide,
    by decide, by decide, by decide, by decide, by decide, by decide⟩

/-- Witness for C9: the comma-decimal `12,5` is accepted, through the
amended theorem's universal clause. -/
theorem c9_parse_number_accepts_decimals_witness :
    isSimpleDecimal "12,5" = true ∧ (parse_number "12,5").isSome = true :=
  ⟨by decide,
   c9_parse_number_accepts_decimals_and_python_float_forms.1 "12,5"
     (by decide)⟩
